import Mathlib

/-!
Verification development for the self-replicating factory simulation
(`self_replicating_factory_sim.py`).

The Python source is shallowly embedded: Python floats are modelled as
exact rationals, Python dicts as insertion-ordered association lists,
Python sets of strings as lists, the `heapq` priority queues as lists kept
sorted by their key, and `random` draws are passed in explicitly as
arguments.  Recipes and module specs are data in the source (and are also
spec-file loadable there), so the embedding carries them in the state.
Each definition mirrors one source function and keeps its name.
-/

namespace FactorySim

/-- The resource catalog of the simulation (`ResourceType` enum of the source). -/
inductive ResourceType where
  | SILICON_ORE
  | IRON_ORE
  | COPPER_ORE
  | ALUMINUM_ORE
  | LITHIUM_ORE
  | RARE_EARTH_ORE
  | CARBON_ORE
  | SULFURIC_ACID
  | HYDROCHLORIC_ACID
  | SODIUM_HYDROXIDE
  | ORGANIC_SOLVENT
  | ELECTROLYTE_SOLUTION
  | POLYMER_RESIN
  | EPOXY
  | SILICONE
  | LUBRICANT
  | COOLANT
  | PURE_SILICON
  | STEEL
  | COPPER_WIRE
  | ALUMINUM_SHEET
  | LITHIUM_COMPOUND
  | RARE_EARTH_MAGNETS
  | GLASS
  | PLASTIC
  | CARBON_FIBER
  | CERAMIC
  | BEARING
  | PRECISION_BEARING
  | GEAR
  | BALL_SCREW
  | LINEAR_GUIDE
  | SPRING
  | DAMPER
  | COUPLING
  | BOLT
  | SCREW
  | WASHER
  | ORING
  | GASKET
  | SILICON_WAFER
  | TRANSISTOR
  | CAPACITOR
  | RESISTOR
  | INDUCTOR
  | DIODE
  | LED
  | INTEGRATED_CIRCUIT
  | MICROPROCESSOR
  | MEMORY_CHIP
  | POWER_REGULATOR
  | VOLTAGE_REGULATOR
  | CRYSTAL_OSCILLATOR
  | THERMOCOUPLE
  | PRESSURE_TRANSDUCER
  | FLOW_METER
  | PROXIMITY_SENSOR
  | ENCODER
  | LOAD_CELL
  | CAMERA_MODULE
  | LIDAR
  | STRAIN_GAUGE
  | MOTOR_COIL
  | ELECTRIC_MOTOR
  | SERVO_MOTOR
  | STEPPER_MOTOR
  | LINEAR_ACTUATOR
  | PNEUMATIC_CYLINDER
  | SOLENOID_VALVE
  | PCB_SUBSTRATE
  | SOLDER_PASTE
  | CONNECTOR
  | WIRE_HARNESS
  | LEAD
  | TIN
  | FLUX
  | BATTERY_CELL
  | SOLAR_CELL
  | TRANSFORMER
  | INVERTER
  | HEAT_SINK
  | HEAT_EXCHANGER
  | COOLING_FAN
  | RADIATOR
  | CHILLER_UNIT
  | REACTION_VESSEL
  | DISTILLATION_COLUMN
  | CATALYST
  | SEPARATION_MEMBRANE
  | CHEMICAL_PUMP
  | CNC_SPINDLE
  | LASER_DIODE
  | FOCUSING_LENS
  | VACUUM_PUMP
  | MASS_FLOW_CONTROLLER
  | COMPRESSOR
  | OSCILLOSCOPE
  | MULTIMETER
  | TENSILE_TESTER
  | CMM_PROBE
  | DISPLAY_PANEL
  | HEPA_FILTER
  | LAMINAR_FLOW_HOOD
  | PARTICLE_COUNTER
  | CONVEYOR_BELT
  | CONVEYOR_MOTOR
  | AGV_CHASSIS
  | AGV_NAVIGATION
  | PLC_PROGRAM
  | ROBOT_FIRMWARE
  | AI_MODEL
  | SCADA_SYSTEM
  | SHREDDER
  | MAGNETIC_SEPARATOR
  | OPTICAL_SORTER
  | CONTROL_BOARD
  | ROBOTIC_ARM
  | CONVEYOR_SYSTEM
  | PRINTER_HEAD_3D
  | FURNACE_ELEMENT
  | SOLAR_PANEL
  | BATTERY_PACK
  | MINING_MODULE
  | REFINING_MODULE
  | CHEMICAL_MODULE
  | ELECTRONICS_MODULE
  | MECHANICAL_MODULE
  | CNC_MODULE
  | LASER_MODULE
  | ASSEMBLY_MODULE
  | SOFTWARE_MODULE
  | TRANSPORT_MODULE
  | RECYCLING_MODULE
  | TESTING_MODULE
  | CLEANROOM_MODULE
  | THERMAL_MODULE
  | POWER_MODULE
  | CONTROL_MODULE
deriving DecidableEq, Repr

/-- The `.value` string of each `ResourceType` member. -/
def ResourceType.value : ResourceType -> String
  | .SILICON_ORE => "silicon_ore"
  | .IRON_ORE => "iron_ore"
  | .COPPER_ORE => "copper_ore"
  | .ALUMINUM_ORE => "aluminum_ore"
  | .LITHIUM_ORE => "lithium_ore"
  | .RARE_EARTH_ORE => "rare_earth_ore"
  | .CARBON_ORE => "carbon_ore"
  | .SULFURIC_ACID => "sulfuric_acid"
  | .HYDROCHLORIC_ACID => "hydrochloric_acid"
  | .SODIUM_HYDROXIDE => "sodium_hydroxide"
  | .ORGANIC_SOLVENT => "organic_solvent"
  | .ELECTROLYTE_SOLUTION => "electrolyte_solution"
  | .POLYMER_RESIN => "polymer_resin"
  | .EPOXY => "epoxy"
  | .SILICONE => "silicone"
  | .LUBRICANT => "lubricant"
  | .COOLANT => "coolant"
  | .PURE_SILICON => "pure_silicon"
  | .STEEL => "steel"
  | .COPPER_WIRE => "copper_wire"
  | .ALUMINUM_SHEET => "aluminum_sheet"
  | .LITHIUM_COMPOUND => "lithium_compound"
  | .RARE_EARTH_MAGNETS => "rare_earth_magnets"
  | .GLASS => "glass"
  | .PLASTIC => "plastic"
  | .CARBON_FIBER => "carbon_fiber"
  | .CERAMIC => "ceramic"
  | .BEARING => "bearing"
  | .PRECISION_BEARING => "precision_bearing"
  | .GEAR => "gear"
  | .BALL_SCREW => "ball_screw"
  | .LINEAR_GUIDE => "linear_guide"
  | .SPRING => "spring"
  | .DAMPER => "damper"
  | .COUPLING => "coupling"
  | .BOLT => "bolt"
  | .SCREW => "screw"
  | .WASHER => "washer"
  | .ORING => "oring"
  | .GASKET => "gasket"
  | .SILICON_WAFER => "silicon_wafer"
  | .TRANSISTOR => "transistor"
  | .CAPACITOR => "capacitor"
  | .RESISTOR => "resistor"
  | .INDUCTOR => "inductor"
  | .DIODE => "diode"
  | .LED => "led"
  | .INTEGRATED_CIRCUIT => "integrated_circuit"
  | .MICROPROCESSOR => "microprocessor"
  | .MEMORY_CHIP => "memory_chip"
  | .POWER_REGULATOR => "power_regulator"
  | .VOLTAGE_REGULATOR => "voltage_regulator"
  | .CRYSTAL_OSCILLATOR => "crystal_oscillator"
  | .THERMOCOUPLE => "thermocouple"
  | .PRESSURE_TRANSDUCER => "pressure_transducer"
  | .FLOW_METER => "flow_meter"
  | .PROXIMITY_SENSOR => "proximity_sensor"
  | .ENCODER => "encoder"
  | .LOAD_CELL => "load_cell"
  | .CAMERA_MODULE => "camera_module"
  | .LIDAR => "lidar"
  | .STRAIN_GAUGE => "strain_gauge"
  | .MOTOR_COIL => "motor_coil"
  | .ELECTRIC_MOTOR => "electric_motor"
  | .SERVO_MOTOR => "servo_motor"
  | .STEPPER_MOTOR => "stepper_motor"
  | .LINEAR_ACTUATOR => "linear_actuator"
  | .PNEUMATIC_CYLINDER => "pneumatic_cylinder"
  | .SOLENOID_VALVE => "solenoid_valve"
  | .PCB_SUBSTRATE => "pcb_substrate"
  | .SOLDER_PASTE => "solder_paste"
  | .CONNECTOR => "connector"
  | .WIRE_HARNESS => "wire_harness"
  | .LEAD => "lead"
  | .TIN => "tin"
  | .FLUX => "flux"
  | .BATTERY_CELL => "battery_cell"
  | .SOLAR_CELL => "solar_cell"
  | .TRANSFORMER => "transformer"
  | .INVERTER => "inverter"
  | .HEAT_SINK => "heat_sink"
  | .HEAT_EXCHANGER => "heat_exchanger"
  | .COOLING_FAN => "cooling_fan"
  | .RADIATOR => "radiator"
  | .CHILLER_UNIT => "chiller_unit"
  | .REACTION_VESSEL => "reaction_vessel"
  | .DISTILLATION_COLUMN => "distillation_column"
  | .CATALYST => "catalyst"
  | .SEPARATION_MEMBRANE => "separation_membrane"
  | .CHEMICAL_PUMP => "chemical_pump"
  | .CNC_SPINDLE => "cnc_spindle"
  | .LASER_DIODE => "laser_diode"
  | .FOCUSING_LENS => "focusing_lens"
  | .VACUUM_PUMP => "vacuum_pump"
  | .MASS_FLOW_CONTROLLER => "mass_flow_controller"
  | .COMPRESSOR => "compressor"
  | .OSCILLOSCOPE => "oscilloscope"
  | .MULTIMETER => "multimeter"
  | .TENSILE_TESTER => "tensile_tester"
  | .CMM_PROBE => "cmm_probe"
  | .DISPLAY_PANEL => "display_panel"
  | .HEPA_FILTER => "hepa_filter"
  | .LAMINAR_FLOW_HOOD => "laminar_flow_hood"
  | .PARTICLE_COUNTER => "particle_counter"
  | .CONVEYOR_BELT => "conveyor_belt"
  | .CONVEYOR_MOTOR => "conveyor_motor"
  | .AGV_CHASSIS => "agv_chassis"
  | .AGV_NAVIGATION => "agv_navigation"
  | .PLC_PROGRAM => "plc_program"
  | .ROBOT_FIRMWARE => "robot_firmware"
  | .AI_MODEL => "ai_model"
  | .SCADA_SYSTEM => "scada_system"
  | .SHREDDER => "shredder"
  | .MAGNETIC_SEPARATOR => "magnetic_separator"
  | .OPTICAL_SORTER => "optical_sorter"
  | .CONTROL_BOARD => "control_board"
  | .ROBOTIC_ARM => "robotic_arm"
  | .CONVEYOR_SYSTEM => "conveyor_system"
  | .PRINTER_HEAD_3D => "3d_printer_head"
  | .FURNACE_ELEMENT => "furnace_element"
  | .SOLAR_PANEL => "solar_panel"
  | .BATTERY_PACK => "battery_pack"
  | .MINING_MODULE => "mining_module"
  | .REFINING_MODULE => "refining_module"
  | .CHEMICAL_MODULE => "chemical_module"
  | .ELECTRONICS_MODULE => "electronics_module"
  | .MECHANICAL_MODULE => "mechanical_module"
  | .CNC_MODULE => "cnc_module"
  | .LASER_MODULE => "laser_module"
  | .ASSEMBLY_MODULE => "assembly_module"
  | .SOFTWARE_MODULE => "software_module"
  | .TRANSPORT_MODULE => "transport_module"
  | .RECYCLING_MODULE => "recycling_module"
  | .TESTING_MODULE => "testing_module"
  | .CLEANROOM_MODULE => "cleanroom_module"
  | .THERMAL_MODULE => "thermal_module"
  | .POWER_MODULE => "power_module"
  | .CONTROL_MODULE => "control_module"

/-! Association-list model of Python dicts: keys are unique, iteration is in
insertion order, assignment to a present key keeps its position, assignment
to an absent key appends. -/

/-- Dict lookup: first value bound to `k`, if any. -/
def lookupA [DecidableEq α] : List (α × β) → α → Option β
  | [], _ => none
  | (k, v) :: rest, key => if k = key then some v else lookupA rest key

/-- Dict lookup with a default: `d.get(k, dflt)`. -/
def getA [DecidableEq α] (l : List (α × β)) (k : α) (dflt : β) : β :=
  (lookupA l k).getD dflt

/-- Dict lookup defaulting to zero: `d.get(k, 0)` on float-valued dicts. -/
def getD0 [DecidableEq α] (l : List (α × ℚ)) (k : α) : ℚ :=
  getA l k 0

/-- Dict assignment `d[k] = v`: update in place or append if absent. -/
def setA [DecidableEq α] : List (α × β) → α → β → List (α × β)
  | [], key, v => [(key, v)]
  | (k, w) :: rest, key, v =>
      if k = key then (k, v) :: rest else (k, w) :: setA rest key v

/-- `d[k] = d.get(k, 0) + v`, the `+=`-with-default idiom of the source. -/
def addQ [DecidableEq α] (l : List (α × ℚ)) (k : α) (v : ℚ) : List (α × ℚ) :=
  setA l k (getD0 l k + v)

/-- Dict deletion `del d[k]` (no-op when the key is absent). -/
def delA [DecidableEq α] (l : List (α × β)) (k : α) : List (α × β) :=
  l.filter (fun p => p.1 ≠ k)

/-- Zero-padded decimal rendering, the `f"{n:0wd}"` format of the source. -/
def padNum (width : ℕ) (n : ℕ) : String :=
  let s := toString n
  String.mk (List.replicate (width - s.length) '0') ++ s

/-- Python `str.endswith`, modelled on character lists. -/
def strEndsWith (s suffix : String) : Bool :=
  suffix.data.isSuffixOf s.data

/-- Python `str.startswith`, modelled on character lists. -/
def strStartsWith (s pre : String) : Bool :=
  pre.data.isPrefixOf s.data

/-- Replacement loop of Python `str.replace`: non-overlapping occurrences,
left to right, for a non-empty pattern `p :: ps`. -/
def replaceGo (p : Char) (ps replacement : List Char) : List Char → List Char
  | [] => []
  | c :: rest =>
      if (p :: ps).isPrefixOf (c :: rest) then
        replacement ++ replaceGo p ps replacement (rest.drop ps.length)
      else c :: replaceGo p ps replacement rest
termination_by l => l.length
decreasing_by
  all_goals simp [List.length_drop]
  omega

/-- Python `str.replace` (the empty-pattern case, unused by the source, is
the identity here). -/
def strReplace (s pattern replacement : String) : String :=
  match pattern.data with
  | [] => s
  | p :: ps => String.mk (replaceGo p ps replacement.data s.data)

/-- `Recipe` dataclass of the source. -/
structure Recipe where
  output : ResourceType
  output_quantity : ℚ
  inputs : List (ResourceType × ℚ)
  energy_kwh : ℚ
  time_hours : ℚ
  required_module : Option String := none
  parallel_capable : Bool := true
  tolerance_um : Option ℚ := none
  cleanroom_class : Option ℕ := none
  software_required : Option ResourceType := none
  waste_products : Option (List (ResourceType × ℚ)) := none
deriving DecidableEq

/-- `ModuleSpec` dataclass of the source. -/
structure ModuleSpec where
  module_type : String
  max_throughput : ℚ
  power_consumption_idle : ℚ
  power_consumption_active : ℚ
  mtbf_hours : ℚ
  maintenance_interval : ℚ
  degradation_rate : ℚ
  physical_footprint : ℚ
  max_batch_size : ℚ
  min_batch_size : ℚ
  setup_time : ℚ
  quality_base_rate : ℚ
  tolerance_capability : Option ℚ := none
  cleanroom_capable : Option ℕ := none
deriving DecidableEq

/-- The task `status` strings that occur in the source. -/
inductive TaskStatus where
  | queued
  | active
  | completed
  | blocked_dependencies
  | blocked_module
  | blocked_constraints
  | blocked_thermal
  | blocked_energy
  | blocked_resources
deriving DecidableEq, Repr

/-- `Task` dataclass of the source, with its field defaults. -/
structure Task where
  task_id : String
  priority : ℤ
  output : ResourceType
  quantity : ℚ
  recipe : Recipe
  dependencies : List String := []
  status : TaskStatus := .queued
  assigned_module : Option String := none
  transport_jobs : List String := []
  batch_size : ℚ := 0
  setup_time : ℚ := 0
  process_time : ℚ := 0
  quality_yield : ℚ := 0.95
  contamination_impact : ℚ := 1
  tolerance_achieved : Option ℚ := none
  start_time : Option ℚ := none
  completion_time : ℚ := 0
  actual_output : ℚ := 0
  waste_generated : List (ResourceType × ℚ) := []
  energy_consumed : ℚ := 0
  software_reliability : ℚ := 1
deriving DecidableEq

/-- `ModuleState` dataclass of the source, with its field defaults. -/
structure ModuleState where
  module_id : String
  module_type : String
  spec : Option ModuleSpec := none
  operating_hours : ℚ := 0
  cycles_completed : ℕ := 0
  time_since_maintenance : ℚ := 0
  current_efficiency : ℚ := 1
  is_failed : Bool := false
  is_in_maintenance : Bool := false
  maintenance_end_time : ℚ := 0
  current_task : Option String := none
  setup_end_time : ℚ := 0
  last_product_type : Option ResourceType := none
  software_version : Option String := none
  contamination_level : ℚ := 0
  temperature : ℚ := 22
deriving DecidableEq

/-- Result strings of `ModuleState.update_condition`. -/
inductive Condition where
  | OPERATIONAL
  | FAILED
  | MAINTENANCE_REQUIRED
deriving DecidableEq, Repr

/-- Config keys read by the embedded functions (`config.get` defaults of the
source). -/
structure Config where
  enable_degradation : Bool := true
  enable_maintenance : Bool := true
  enable_batch_processing : Bool := true
  enable_weather : Bool := true
  battery_efficiency : ℚ := 0.95
  initial_solar_capacity_kw : ℚ := 100
  solar_panel_efficiency : ℚ := 0.22
  latitude : ℚ := 35
  average_cloud_cover : ℚ := 0.3
  ambient_temperature : ℚ := 25
  factory_area_m2 : ℚ := 20000
deriving DecidableEq

/-- `ModuleState.update_condition`.  The `random.random()` failure draw is
passed in as `draw`; the updated state is returned alongside the condition
string since the source mutates `self`. -/
def ModuleState.update_condition (m : ModuleState) (hours_operated : ℚ)
    (cfg : Config) (draw : ℚ) : ModuleState × Condition :=
  if !cfg.enable_degradation then (m, .OPERATIONAL)
  else
    let m := { m with
      operating_hours := m.operating_hours + hours_operated,
      time_since_maintenance := m.time_since_maintenance + hours_operated }
    let failure_now :=
      match m.is_failed, m.spec with
      | false, some spec => decide (draw < hours_operated / spec.mtbf_hours)
      | _, _ => false
    if failure_now then ({ m with is_failed := true }, .FAILED)
    else
      match m.spec with
      | some spec =>
          let degradation := spec.degradation_rate * (hours_operated / 1000)
          let eff := max 0.3 (m.current_efficiency * (1 - degradation))
          let m := { m with current_efficiency := eff }
          if cfg.enable_maintenance &&
              m.time_since_maintenance ≥ spec.maintenance_interval then
            (m, .MAINTENANCE_REQUIRED)
          else (m, .OPERATIONAL)
      | none => (m, .OPERATIONAL)

/-- Python truthiness of an optional string: `None` and `""` are falsy. -/
def truthyStr : Option String → Bool
  | some s => s ≠ ""
  | none => false

/-- `ModuleState.get_effective_throughput`.  `none` stands for the
`float('inf')` the source returns when the module has no spec; no embedded
call site reaches that branch (`calculate_production_parameters` returns
early for spec-less modules). -/
def ModuleState.get_effective_throughput (m : ModuleState) : Option ℚ :=
  if m.is_failed || m.is_in_maintenance then some 0
  else
    match m.spec with
    | some spec =>
        let base := spec.max_throughput * m.current_efficiency
        let base :=
          if |m.temperature - 22| > 5 then base * (1 - 0.01 * |m.temperature - 22|)
          else base
        let base := if truthyStr m.software_version then base * 0.95 else base
        some base
    | none => none

/-- `ModuleState.get_power_consumption`. -/
def ModuleState.get_power_consumption (m : ModuleState) : ℚ :=
  match m.spec with
  | none => 0
  | some spec =>
      if m.is_failed then 0
      else if m.is_in_maintenance then spec.power_consumption_idle * 0.5
      else if m.current_task.isSome then spec.power_consumption_active
      else spec.power_consumption_idle

/-- Entry of the `MATERIAL_PROPERTIES` table of `StorageSystem`:
`(density t/m3, storage temperature C, contamination sensitivity)`. -/
structure MatProps where
  density : ℚ
  storage_temp : ℚ
  sensitivity : ℚ
deriving DecidableEq

/-- `StorageSystem.get_material_properties`: the eight-entry
`MATERIAL_PROPERTIES` table with default `(1.0, 25, 0.5)`. -/
def get_material_properties : ResourceType → MatProps
  | .SILICON_ORE => ⟨2.3, 25, 0.1⟩
  | .IRON_ORE => ⟨4.0, 25, 0.1⟩
  | .SILICON_WAFER => ⟨2.3, 22, 1.0⟩
  | .INTEGRATED_CIRCUIT => ⟨0.2, 22, 1.0⟩
  | .CHEMICAL_PUMP => ⟨5.0, 25, 0.3⟩
  | .LITHIUM_COMPOUND => ⟨1.5, 20, 0.8⟩
  | .SULFURIC_ACID => ⟨1.8, 15, 0.5⟩
  | .ORGANIC_SOLVENT => ⟨0.8, 10, 0.6⟩
  | _ => ⟨1.0, 25, 0.5⟩

/-- Rejection reason strings of `StorageSystem.can_store`. -/
inductive StoreReason where
  | OK
  | VOLUME_EXCEEDED
  | WEIGHT_EXCEEDED
  | TEMPERATURE_INCOMPATIBLE
deriving DecidableEq, Repr

/-- `StorageSystem` dataclass of the source. -/
structure StorageSystem where
  total_volume_m3 : ℚ
  total_weight_capacity_tons : ℚ
  current_inventory : List (ResourceType × ℚ) := []
  waste_inventory : List (ResourceType × ℚ) := []
  enabled : Bool := true
  temperature_controlled : Bool := true
  contamination_controlled : Bool := true
deriving DecidableEq

/-- `StorageSystem.can_store`. -/
def StorageSystem.can_store (s : StorageSystem) (resource : ResourceType)
    (quantity : ℚ) : Bool × StoreReason :=
  if !s.enabled then (true, .OK)
  else
    let props := get_material_properties resource
    let volume_needed := quantity / props.density
    let current_volume :=
      (s.current_inventory.map
        (fun p => p.2 / (get_material_properties p.1).density)).sum
    let current_weight := (s.current_inventory.map (fun p => p.2)).sum
    if current_volume + volume_needed > s.total_volume_m3 then
      (false, .VOLUME_EXCEEDED)
    else if current_weight + quantity > s.total_weight_capacity_tons then
      (false, .WEIGHT_EXCEEDED)
    else if s.temperature_controlled &&
        s.current_inventory.any (fun p =>
          |(get_material_properties p.1).storage_temp - props.storage_temp| > 10)
      then (false, .TEMPERATURE_INCOMPATIBLE)
    else (true, .OK)

/-- `StorageSystem.add_resource`; `none` is the `False` (rejected) return,
`some` carries the updated storage of the `True` return. -/
def StorageSystem.add_resource (s : StorageSystem) (resource : ResourceType)
    (quantity : ℚ) : Option StorageSystem :=
  if (s.can_store resource quantity).1 then
    some { s with current_inventory := addQ s.current_inventory resource quantity }
  else none

/-- `WasteStream.recyclable_materials`, fixed in `WasteStream.__init__`. -/
def recyclable_materials : ResourceType → Option ℚ
  | .STEEL => some 0.95
  | .ALUMINUM_SHEET => some 0.90
  | .COPPER_WIRE => some 0.85
  | .PLASTIC => some 0.60
  | .GLASS => some 0.80
  | .SILICON_WAFER => some 0.70
  | _ => none

/-- `WasteStream` state: its `defaultdict(float)` waste inventory. -/
structure WasteStream where
  waste_inventory : List (ResourceType × ℚ) := []
deriving DecidableEq

/-- `WasteStream.add_waste`. -/
def WasteStream.add_waste (w : WasteStream) (waste_type : ResourceType)
    (quantity : ℚ) : WasteStream :=
  { w with waste_inventory := addQ w.waste_inventory waste_type quantity }

/-- `WasteStream.process_recycling`: returns the recovered amount and the
updated stream (the drawn `available` is subtracted from the waste
inventory). -/
def WasteStream.process_recycling (w : WasteStream) (waste_type : ResourceType)
    (quantity : ℚ) : ℚ × WasteStream :=
  match recyclable_materials waste_type with
  | none => (0, w)
  | some recovery_rate =>
      let available := min quantity (getD0 w.waste_inventory waste_type)
      let recovered := available * recovery_rate
      (recovered,
        { w with waste_inventory := addQ w.waste_inventory waste_type (-available) })

/-- `WasteStream.get_total_waste`. -/
def WasteStream.get_total_waste (w : WasteStream) : ℚ :=
  (w.waste_inventory.map (fun p => p.2)).sum

/-- `CleanRoomEnvironment._get_base_particles`. -/
def base_particles (cleanroom_class : ℕ) : ℚ :=
  if cleanroom_class = 1 then 35.2
  else if cleanroom_class = 10 then 352
  else if cleanroom_class = 100 then 3520
  else if cleanroom_class = 1000 then 35200
  else if cleanroom_class = 10000 then 352000
  else if cleanroom_class = 100000 then 3520000
  else 3520000

/-- `CleanRoomEnvironment` state. -/
structure CleanRoomEnvironment where
  cleanroom_class : ℕ
  particle_count : ℚ
  time_since_cleaning : ℚ
deriving DecidableEq

/-- `CleanRoomEnvironment.__init__`. -/
def CleanRoomEnvironment.init (cleanroom_class : ℕ) : CleanRoomEnvironment :=
  ⟨cleanroom_class, base_particles cleanroom_class, 0⟩

/-- `CleanRoomEnvironment.update_contamination`.  The float power
`1.001 ** time_hours` has no exact rational value for fractional exponents,
so the power function is passed in as `pow_approx`. -/
def CleanRoomEnvironment.update_contamination (cr : CleanRoomEnvironment)
    (activity_level time_hours : ℚ) (pow_approx : ℚ → ℚ → ℚ) :
    CleanRoomEnvironment :=
  let contamination_rate := activity_level * 100
  { cr with
    particle_count :=
      (cr.particle_count + contamination_rate * time_hours) *
        pow_approx 1.001 time_hours,
    time_since_cleaning := cr.time_since_cleaning + time_hours }

/-- `CleanRoomEnvironment.calculate_yield_impact`. -/
def CleanRoomEnvironment.calculate_yield_impact (cr : CleanRoomEnvironment)
    (process_sensitivity : ℚ) : ℚ :=
  let base_impact := cr.particle_count / 1000000
  max 0 (1 - base_impact * process_sensitivity)

/-- `ThermalManagementSystem` state: `ambient_temp` comes from the config,
`cooling_capacity = 10000` and `chiller_efficiency = 3.5` are set in
`__init__`; `factory_area_m2` is the config key the cooling computation
reads. -/
structure ThermalManagementSystem where
  ambient_temp : ℚ
  factory_area_m2 : ℚ
  cooling_capacity : ℚ := 10000
  chiller_efficiency : ℚ := 3.5
deriving DecidableEq

/-- `ThermalManagementSystem.calculate_module_heat`: 80 % of the current
power draw of every module that has a spec. -/
def calculate_module_heat (module_states : List (String × ModuleState)) : ℚ :=
  (module_states.map (fun p =>
    if p.2.spec.isSome then p.2.get_power_consumption * 0.8 else 0)).sum

/-- `ThermalManagementSystem.calculate_cooling_requirement`. -/
def ThermalManagementSystem.calculate_cooling_requirement
    (ts : ThermalManagementSystem) (heat_generation : ℚ) : ℚ :=
  let solar_heat_gain := ts.factory_area_m2 * 0.1
  let total_heat := heat_generation + solar_heat_gain
  let cop := max 1.5 (ts.chiller_efficiency - 0.05 * |ts.ambient_temp - 22|)
  total_heat / cop

/-- `ThermalManagementSystem.check_thermal_constraints`. -/
def ThermalManagementSystem.check_thermal_constraints
    (ts : ThermalManagementSystem) (heat_generation : ℚ) : Bool :=
  ts.calculate_cooling_requirement heat_generation ≤ ts.cooling_capacity

/-- `SoftwareProductionSystem.bug_rates`, fixed in `__init__`. -/
def bug_rates : ResourceType → Option ℚ
  | .PLC_PROGRAM => some 0.05
  | .ROBOT_FIRMWARE => some 0.08
  | .AI_MODEL => some 0.15
  | .SCADA_SYSTEM => some 0.10
  | _ => none

/-- `SoftwareProductionSystem` state.  The library maps its string keys to
the `bug_rate` field of the stored package (the only package field the
engine reads back). -/
structure SoftwareProductionSystem where
  software_library : List (String × ℚ) := []
  development_hours : List (ResourceType × ℚ) := []
  version_counter : List (ResourceType × ℕ) := []
deriving DecidableEq

/-- `SoftwareProductionSystem.develop_software`: returns the new package's
`(version, bug_rate)` and the updated system. -/
def SoftwareProductionSystem.develop_software (ss : SoftwareProductionSystem)
    (software_type : ResourceType) (dev_hours : ℚ) :
    (String × ℚ) × SoftwareProductionSystem :=
  let dh := getD0 ss.development_hours software_type + dev_hours
  let n := getA ss.version_counter software_type 0 + 1
  let version := "v" ++ toString n ++ ".0"
  let base_bug_rate := (bug_rates software_type).getD 0.1
  let experience_factor := max 0.5 (1 - dh / 1000)
  let bugs_after_testing := base_bug_rate * experience_factor * 0.1
  let key := software_type.value ++ "_" ++ version
  ((version, bugs_after_testing),
    { software_library := setA ss.software_library key bugs_after_testing,
      development_hours := setA ss.development_hours software_type dh,
      version_counter := setA ss.version_counter software_type n })

/-- `SoftwareProductionSystem.calculate_software_reliability`. -/
def SoftwareProductionSystem.calculate_software_reliability
    (ss : SoftwareProductionSystem) (software_type : ResourceType) : ℚ :=
  match bug_rates software_type with
  | none => 1
  | some _ =>
      let latest_version :=
        software_type.value ++ "_v" ++
          toString (getA ss.version_counter software_type 0) ++ ".0"
      match lookupA ss.software_library latest_version with
      | some bug_rate => 1 - bug_rate
      | none => 0.95

/-- `EnergySystem` state; `enable_weather` and the other config keys the
methods read are carried alongside. -/
structure EnergySystem where
  enable_weather : Bool
  battery_efficiency : ℚ
  solar_capacity_kw : ℚ
  panel_efficiency : ℚ
  battery_capacity_kwh : ℚ
  battery_charge_kwh : ℚ
  battery_cycles : ℚ
  panel_age_days : ℚ
  days_since_cleaning : ℚ
  latitude : ℚ
  average_cloud_cover : ℚ
  ambient_temperature : ℚ
deriving DecidableEq

/-- `EnergySystem.__init__`: battery capacity is the hard-coded 1000 kWh and
the initial charge is half of it. -/
def EnergySystem.init (cfg : Config) : EnergySystem where
  enable_weather := cfg.enable_weather
  battery_efficiency := cfg.battery_efficiency
  solar_capacity_kw := cfg.initial_solar_capacity_kw
  panel_efficiency := cfg.solar_panel_efficiency
  battery_capacity_kwh := 1000
  battery_charge_kwh := 1000 * 0.5
  battery_cycles := 0
  panel_age_days := 0
  days_since_cleaning := 0
  latitude := cfg.latitude
  average_cloud_cover := cfg.average_cloud_cover
  ambient_temperature := cfg.ambient_temperature

/-- `EnergySystem.update_battery`: signed delta, charge capped at 95 % and
floored at 20 % of capacity; returns the updated system and the actual
(signed) energy moved.  `duration_hours` is unused, as in the source. -/
def EnergySystem.update_battery (es : EnergySystem)
    (energy_delta_kwh _duration_hours : ℚ) : EnergySystem × ℚ :=
  if energy_delta_kwh > 0 then
    let charge_rate := min energy_delta_kwh (es.battery_capacity_kwh * 0.5)
    let actual_charge := charge_rate * es.battery_efficiency
    ({ es with
        battery_charge_kwh :=
          min (es.battery_capacity_kwh * 0.95) (es.battery_charge_kwh + actual_charge),
        battery_cycles :=
          es.battery_cycles + actual_charge / es.battery_capacity_kwh },
      actual_charge)
  else
    let discharge_requested := |energy_delta_kwh|
    let max_discharge := es.battery_capacity_kwh * 0.5
    let actual_discharge :=
      min discharge_requested
        (min max_discharge (es.battery_charge_kwh - es.battery_capacity_kwh * 0.2))
    ({ es with
        battery_charge_kwh := es.battery_charge_kwh - actual_discharge,
        battery_cycles :=
          es.battery_cycles + actual_discharge / es.battery_capacity_kwh },
      -actual_discharge)

/-- `EnergySystem.calculate_solar_generation`.  The weather-disabled branch
is exact; the weather-enabled branch evaluates float trigonometry, float
powers and a `random.gauss` draw and is abstracted as the `solarWeather`
argument (no claim depends on its value). -/
def EnergySystem.calculate_solar_generation (es : EnergySystem)
    (solarWeather : ℚ → ℤ → ℚ) (hour_of_day : ℚ) (day_of_year : ℤ) : ℚ :=
  if !es.enable_weather then es.solar_capacity_kw * 8 / 24
  else solarWeather hour_of_day day_of_year

/-- `TransportJob` dataclass of the source. -/
structure TransportJob where
  job_id : String
  from_module : String
  to_module : String
  resource_type : ResourceType
  quantity : ℚ
  priority : ℤ
  distance : ℚ
  assigned_vehicle : Option String := none
  start_time : Option ℚ := none
  completion_time : Option ℚ := none
  energy_consumed : ℚ := 0
deriving DecidableEq

/-- AGV `status` strings of the source. -/
inductive AGVStatus where
  | idle
  | transporting
  | charging
  | maintenance
deriving DecidableEq, Repr

/-- One AGV of the fleet, with the defaults of `TransportSystem.__init__`. -/
structure AGV where
  status : AGVStatus := .idle
  battery_level : ℚ := 1
  current_load : ℚ := 0
  max_load : ℚ := 2000
  speed_mps : ℚ := 1
  location : String := "depot"
  maintenance_hours : ℚ := 0
deriving DecidableEq

/-- Lexicographic `(priority, id)` key order of the heap entries; `heapq`
orders tuples this way and ids break ties. -/
def entryLE (a b : ℤ × String × τ) : Bool :=
  a.1 < b.1 || (a.1 = b.1 && (a.2.1 < b.2.1 || a.2.1 = b.2.1))

/-- Sorted insertion; together with head-removal this models the observable
pop-minimum behaviour of `heapq`. -/
def insertSorted (le : α → α → Bool) : List α → α → List α
  | [], x => [x]
  | y :: rest, x => if le x y then x :: y :: rest else y :: insertSorted le rest x

/-- The fixed module list of `TransportSystem._generate_layout`. -/
def layout_modules : List String :=
  ["mining", "refining", "chemical", "electronics", "mechanical",
   "cnc", "laser", "cleanroom", "assembly", "software",
   "transport", "recycling", "testing", "thermal"]

/-- `math.ceil(math.sqrt(len(modules)))` of the layout generator. -/
def grid_size : ℕ :=
  let n := layout_modules.length
  let s := Nat.sqrt n
  if s * s < n then s + 1 else s

/-- `TransportSystem._generate_layout`: modules on a grid with 50 m
spacing. -/
def module_locations : List (String × ℚ × ℚ) :=
  layout_modules.enum.map (fun p =>
    (p.2, ((p.1 % grid_size : ℕ) * 50 : ℚ), ((p.1 / grid_size : ℕ) * 50 : ℚ)))

/-- `TransportSystem.calculate_distance`: Manhattan distance on the layout,
100 m when either endpoint is unknown. -/
def calculate_distance (from_module to_module : String) : ℚ :=
  match lookupA module_locations from_module,
      lookupA module_locations to_module with
  | some a, some b => |b.1 - a.1| + |b.2 - a.2|
  | _, _ => 100

/-- `TransportSystem` state. -/
structure TransportSystem where
  transport_queue : List (ℤ × String × TransportJob) := []
  active_transports : List (String × TransportJob) := []
  completed_transports : List TransportJob := []
  agv_fleet : List (String × AGV) := []
  conveyor_capacity : ℚ := 1000
  conveyor_speed : ℚ := 2
  conveyor_utilization : ℚ := 0
deriving DecidableEq

/-- `TransportSystem.__init__` for a given fleet size. -/
def TransportSystem.init (agv_fleet_size : ℕ) : TransportSystem :=
  { agv_fleet := (List.range agv_fleet_size).map
      (fun i => ("agv_" ++ padNum 3 i, {})) }

/-- `TransportSystem.schedule_transport`: build the job, push it on the
transport heap, return it (the source always returns the job). -/
def TransportSystem.schedule_transport (ts : TransportSystem)
    (from_module to_module : String) (resource : ResourceType)
    (quantity : ℚ) (priority : ℤ) : TransportJob × TransportSystem :=
  let job_id := "transport_" ++ padNum 6 ts.transport_queue.length
  let distance := calculate_distance from_module to_module
  let job : TransportJob :=
    { job_id := job_id, from_module := from_module, to_module := to_module,
      resource_type := resource, quantity := quantity, priority := priority,
      distance := distance }
  (job, { ts with transport_queue :=
      insertSorted entryLE ts.transport_queue (priority, job_id, job) })

/-- `TransportSystem.find_available_agv`: first idle AGV with charge above
0.2 and enough capacity, returned together with its id. -/
def find_available_agv (fleet : List (String × AGV)) (load_weight : ℚ) :
    Option (String × AGV) :=
  fleet.find? (fun p =>
    p.2.status = .idle && p.2.battery_level > 0.2 && p.2.max_load ≥ load_weight)

/-- Loop body of `TransportSystem.process_transport_queue`: the remaining
heap is carried explicitly, `jobs_started` counts successful starts and the
loop stops at `max_starts = 5`, on queue exhaustion, or when no AGV is
available (the popped entry is then pushed back). -/
def ptqGo (current_time : ℚ) :
    List (ℤ × String × TransportJob) → ℕ → TransportSystem → TransportSystem
  | [], _, ts => { ts with transport_queue := [] }
  | (priority, job_id, job) :: rest, jobs_started, ts =>
      if jobs_started ≥ 5 then
        { ts with transport_queue := (priority, job_id, job) :: rest }
      else if job.quantity < 100 && ts.conveyor_utilization < 0.8 then
        let travel_time := job.distance / ts.conveyor_speed / 3600
        let job := { job with
          completion_time := some (current_time + travel_time),
          energy_consumed := job.distance * 0.5 }
        let ts := { ts with
          conveyor_utilization :=
            ts.conveyor_utilization + job.quantity / ts.conveyor_capacity,
          active_transports := setA ts.active_transports job_id job }
        ptqGo current_time rest (jobs_started + 1) ts
      else
        match find_available_agv ts.agv_fleet job.quantity with
        | some (agv_id, agv) =>
            let load_time := job.quantity / 1000 * 0.1
            let travel_time := job.distance / agv.speed_mps / 3600
            let unload_time := load_time
            let total_time := load_time + travel_time + unload_time
            let agv := { agv with
              status := .transporting,
              current_load := job.quantity,
              battery_level := agv.battery_level - job.distance * 0.001 }
            let job := { job with
              assigned_vehicle := some agv_id,
              start_time := some current_time,
              completion_time := some (current_time + total_time),
              energy_consumed := job.distance * 2.0 }
            let ts := { ts with
              agv_fleet := setA ts.agv_fleet agv_id agv,
              active_transports := setA ts.active_transports job_id job }
            ptqGo current_time rest (jobs_started + 1) ts
        | none =>
            { ts with transport_queue :=
                insertSorted entryLE rest (priority, job_id, job) }

/-- `TransportSystem.process_transport_queue`. -/
def TransportSystem.process_transport_queue (ts : TransportSystem)
    (current_time : ℚ) : TransportSystem :=
  ptqGo current_time ts.transport_queue 0 ts

/-- `MAX_TASK_STARTS_PER_STEP` constant of the source. -/
def MAX_TASK_STARTS_PER_STEP : ℕ := 5

/-- `MAX_CONCURRENT_TRANSPORTS` constant of the source.  It is defined at
module level but referenced nowhere else in the source. -/
def MAX_CONCURRENT_TRANSPORTS : ℕ := 20

/-- `MAX_LOG_ENTRIES` constant of the source. -/
def MAX_LOG_ENTRIES : ℕ := 5000

/-- `LOG_TRIM_SIZE` constant of the source. -/
def LOG_TRIM_SIZE : ℕ := 2500

/-- One entry of the bounded factory log. -/
structure LogEntry where
  timestamp : ℚ
  level : String
  message : String
  thermal_load : ℚ
  waste_total : ℚ
deriving DecidableEq

/-- The `Factory` state: the containers the embedded methods read or
write.  `recipes` and `module_specs` carry the `RECIPES` and `MODULE_SPECS`
catalogs, which the source also lets a spec file replace. -/
structure FactoryState where
  config : Config := {}
  recipes : List Recipe := []
  module_specs : List (String × ModuleSpec) := []
  time : ℚ := 0
  storage : StorageSystem
  waste_stream : WasteStream := {}
  energy_system : EnergySystem
  thermal_system : ThermalManagementSystem
  transport_system : TransportSystem := {}
  software_system : SoftwareProductionSystem := {}
  module_states : List (String × ModuleState) := []
  cleanroom_environments : List (String × CleanRoomEnvironment) := []
  task_counter : ℕ := 0
  task_queue : List (ℤ × String × Task) := []
  active_tasks : List (String × Task) := []
  blocked_tasks : List (String × Task) := []
  completed_tasks : List Task := []
  completed_task_ids : List String := []
  log_entries : List LogEntry := []
deriving DecidableEq

/-- `Factory.log`: append an entry, trim the ring buffer past
`MAX_LOG_ENTRIES` down to the last `LOG_TRIM_SIZE`. -/
def FactoryState.log (st : FactoryState) (message level : String) :
    FactoryState :=
  let entry : LogEntry :=
    { timestamp := st.time, level := level, message := message,
      thermal_load := calculate_module_heat st.module_states,
      waste_total := st.waste_stream.get_total_waste }
  let entries := st.log_entries ++ [entry]
  let entries :=
    if entries.length > MAX_LOG_ENTRIES then
      entries.drop (entries.length - LOG_TRIM_SIZE)
    else entries
  { st with log_entries := entries }

/-- `next((r for r in RECIPES if r.output == output), None)`. -/
def findRecipe (recipes : List Recipe) (output : ResourceType) : Option Recipe :=
  recipes.find? (fun r => r.output = output)

/-- Exceptional outcomes of `create_production_task`:
`CircularDependencyError` carries the `.value` cycle path; `OutOfFuel` is
the embedding's recursion-depth guard (the theorems hold for every fuel). -/
inductive CreateErr where
  | CircularDependencyError (cycle_path : List String)
  | OutOfFuel
deriving DecidableEq, Repr

/-- Rejection reason rendering used in log messages. -/
def StoreReason.str : StoreReason → String
  | .OK => "OK"
  | .VOLUME_EXCEEDED => "VOLUME_EXCEEDED"
  | .WEIGHT_EXCEEDED => "WEIGHT_EXCEEDED"
  | .TEMPERATURE_INCOMPATIBLE => "TEMPERATURE_INCOMPATIBLE"

/-- The per-input loop of `create_production_task`: availability is current
storage plus (for recyclable kinds) the amount drawn from the waste stream;
a deficit triggers a recursive expansion (`recur`) for `deficit * 1.1` at
`priority + 1`; exceptions propagate with the state reached so far. -/
def processInputs
    (recur : FactoryState → ResourceType → ℚ → ℤ → List ResourceType →
      FactoryState × Except CreateErr (Option Task))
    (quantity : ℚ) (recipe : Recipe) (priority : ℤ)
    (visited : List ResourceType) :
    List (ResourceType × ℚ) → FactoryState → Task →
    FactoryState × Except CreateErr Task
  | [], st, task => (st, .ok task)
  | (input_resource, input_qty) :: rest, st, task =>
      let required := input_qty * quantity / recipe.output_quantity
      let available := getD0 st.storage.current_inventory input_resource
      let avst :=
        if (recyclable_materials input_resource).isSome then
          let r := st.waste_stream.process_recycling input_resource required
          (available + r.1, { st with waste_stream := r.2 })
        else (available, st)
      let available := avst.1
      let st := avst.2
      if available < required then
        let deficit := required - available
        match recur st input_resource (deficit * 1.1) (priority + 1) visited with
        | (st, .error e) => (st, .error e)
        | (st, .ok (some dep_task)) =>
            processInputs recur quantity recipe priority visited rest st
              { task with dependencies := task.dependencies ++ [dep_task.task_id] }
        | (st, .ok none) =>
            processInputs recur quantity recipe priority visited rest st task
      else processInputs recur quantity recipe priority visited rest st task

/-- Tail of `create_production_task`: push the finished task on the task
heap and log its creation. -/
def finishCreate (st : FactoryState) (task : Task) :
    FactoryState × Except CreateErr (Option Task) :=
  let q := insertSorted entryLE st.task_queue (task.priority, task.task_id, task)
  let st := { st with task_queue := q }
  (st.log ("Created task " ++ task.task_id ++ " for " ++ toString task.quantity
      ++ " " ++ task.output.value) "INFO",
    .ok (some task))

/-- Software-dependency check and heap push at the end of
`create_production_task`: when the recipe names required software, a
dependency task for it is expanded at `priority + 2` (the source compares
the `ResourceType` against the string-keyed software library, so the
membership test is always false and this branch always recurses). -/
def softwareAndFinish
    (recur : FactoryState → ResourceType → ℚ → ℤ → List ResourceType →
      FactoryState × Except CreateErr (Option Task))
    (st : FactoryState) (task : Task) (recipe : Recipe) (priority : ℤ)
    (visited' : List ResourceType) :
    FactoryState × Except CreateErr (Option Task) :=
  match recipe.software_required with
  | some sw =>
      match recur st sw 1 (priority + 2) visited' with
      | (st, .error e) => (st, .error e)
      | (st, .ok (some dep_task)) =>
          finishCreate st { task with dependencies :=
            task.dependencies ++ [dep_task.task_id] }
      | (st, .ok none) => finishCreate st task
  | none => finishCreate st task

/-- Body of `create_production_task` with the recursive call abstracted as
`recur`.  Mirrors the source order: cycle check against the visited set,
recipe lookup, storage admission, task allocation, per-input dependency
expansion, software dependency, heap push.  The visited set is threaded
functionally: each recursive call receives `visited ++ [output]`, matching
`_visited.copy()` after `_visited.add(output)` (the `finally` discard only
undoes the add on the caller's own set).  The source compares
`recipe.software_required` (a `ResourceType`) against the string-keyed
software library, so that membership test is always false and the software
branch always recurses. -/
def createBody
    (recur : FactoryState → ResourceType → ℚ → ℤ → List ResourceType →
      FactoryState × Except CreateErr (Option Task))
    (st : FactoryState) (output : ResourceType) (quantity : ℚ)
    (priority : ℤ) (visited : List ResourceType) :
    FactoryState × Except CreateErr (Option Task) :=
  if output ∈ visited then
    (st, .error (.CircularDependencyError
      (visited.map ResourceType.value ++ [output.value])))
  else
    let visited' := visited ++ [output]
    match findRecipe st.recipes output with
    | none =>
        (st.log ("No recipe found for " ++ output.value) "ERROR", .ok none)
    | some recipe =>
        let cs := st.storage.can_store output quantity
        if !cs.1 then
          (st.log ("Cannot store " ++ toString quantity ++ " " ++ output.value
              ++ ": " ++ cs.2.str) "WARNING",
            .ok none)
        else
          let counter := st.task_counter + 1
          let task_id := "task_" ++ padNum 5 counter ++ "_" ++ output.value
          let st := { st with task_counter := counter }
          let task : Task :=
            { task_id := task_id, priority := priority, output := output,
              quantity := quantity, recipe := recipe }
          match processInputs recur quantity recipe priority visited'
              recipe.inputs st task with
          | (st, .error e) => (st, .error e)
          | (st, .ok task) =>
              softwareAndFinish recur st task recipe priority visited'

/-- `Factory.create_production_task`, fuel-indexed.  The returned state
carries every mutation made before an exception escaped, as in Python. -/
def createProductionTask :
    ℕ → FactoryState → ResourceType → ℚ → ℤ → List ResourceType →
    FactoryState × Except CreateErr (Option Task)
  | 0, st, _, _, _, _ => (st, .error .OutOfFuel)
  | fuel + 1, st, output, quantity, priority, visited =>
      createBody (createProductionTask fuel) st output quantity priority visited

/-- Strict lexicographic order on `(efficiency, module_id)`; Python's
reverse tuple sort makes `find_available_module` pick the greatest such
pair. -/
def effIdLT (a b : ℚ × String) : Bool :=
  a.1 < b.1 || (a.1 = b.1 && a.2 < b.2)

/-- First maximal element under `effIdLT` (ids are unique, so ties cannot
occur between distinct entries). -/
def pickMaxEffId (l : List (ℚ × String)) : Option (ℚ × String) :=
  l.foldl (fun acc x =>
    match acc with
    | none => some x
    | some b => if effIdLT b x then some x else some b) none

/-- `Factory.find_available_module`: candidates of the requested type that
are not failed, not in maintenance, idle, and whose own (singleton) heat
passes the thermal check; the most efficient one wins. -/
def find_available_module (st : FactoryState) (module_type : String) :
    Option String :=
  let suitable := st.module_states.filterMap (fun p =>
    if p.2.module_type = module_type && !p.2.is_failed &&
        !p.2.is_in_maintenance && p.2.current_task.isNone &&
        st.thermal_system.check_thermal_constraints (calculate_module_heat [p])
    then some (p.2.current_efficiency, p.1)
    else none)
  (pickMaxEffId suitable).map (fun p => p.2)

/-- The `result` dict of `calculate_production_parameters`. -/
structure ProductionParams where
  setup_time : ℚ := 0
  process_time : ℚ := 0
  total_time : ℚ := 0
  energy_required : ℚ := 0
  expected_yield : ℚ := 0
  transport_time : ℚ := 0
  waste_generated : List (ResourceType × ℚ) := []
deriving DecidableEq

/-- Quality, waste and energy tail of `calculate_production_parameters`
(the code below the cleanroom gate).  The `random.gauss(1.0, 0.02)` draw is
the `gauss_draw` argument. -/
def cppTail (st : FactoryState) (spec : ModuleSpec)
    (setup_time batch_size process_time : ℚ) (module_state : ModuleState)
    (task : Task) (gauss_draw : ℚ) :
    Option ProductionParams × ModuleState × Task :=
  let quality_rate :=
    spec.quality_base_rate * module_state.current_efficiency *
      task.contamination_impact
  let sw := truthyStr module_state.software_version
  let sw_reliability := st.software_system.calculate_software_reliability
    (task.recipe.software_required.getD .PLC_PROGRAM)
  let quality_rate := if sw then quality_rate * sw_reliability else quality_rate
  let task := if sw then { task with software_reliability := sw_reliability } else task
  let quality_rate := quality_rate * gauss_draw
  let quality_rate := max 0.5 (min 1 quality_rate)
  let expected_yield := batch_size * quality_rate
  let waste_amount := batch_size * (1 - quality_rate)
  let waste_generated : List (ResourceType × ℚ) :=
    if waste_amount > 0 then
      if task.output = .STEEL || task.output = .ALUMINUM_SHEET then
        [(task.output, waste_amount * 0.8)]
      else [(.PLASTIC, waste_amount * 0.2)]
    else []
  let energy_required :=
    spec.power_consumption_idle * setup_time +
      spec.power_consumption_active * process_time
  let params : ProductionParams :=
    { setup_time := setup_time, process_time := process_time,
      total_time := setup_time + process_time,
      energy_required := energy_required, expected_yield := expected_yield,
      transport_time := 0, waste_generated := waste_generated }
  (some params, module_state, task)

/-- The tolerance gate of `calculate_production_parameters`: Python
truthiness makes it apply only when both the recipe tolerance and the spec
capability are set and non-zero; it fails when the capability exceeds the
required tolerance. -/
def tolFail (task : Task) (spec : ModuleSpec) : Bool :=
  match task.recipe.tolerance_um, spec.tolerance_capability with
  | some tol, some cap => !(tol = 0) && !(cap = 0) && cap > tol
  | _, _ => false

/-- Tolerance and cleanroom gates of `calculate_production_parameters`
(the code between the throughput check and the quality tail): a zero
cleanroom class is falsy in Python, so the cleanroom gate is skipped for
it. -/
def cppGates (st : FactoryState) (spec : ModuleSpec)
    (setup_time batch_size process_time : ℚ) (module_state : ModuleState)
    (task : Task) (gauss_draw : ℚ) :
    Option ProductionParams × ModuleState × Task :=
  if tolFail task spec then (none, module_state, task)
  else
    match task.recipe.cleanroom_class with
    | some required_class =>
        if required_class = 0 then
          cppTail st spec setup_time batch_size process_time
            module_state task gauss_draw
        else
          match lookupA st.cleanroom_environments module_state.module_id with
          | none => (none, module_state, task)
          | some cleanroom =>
              if cleanroom.cleanroom_class > required_class then
                (none, module_state, task)
              else
                let process_sensitivity := 1 / (required_class : ℚ)
                let task := { task with contamination_impact :=
                  cleanroom.calculate_yield_impact process_sensitivity }
                cppTail st spec setup_time batch_size process_time
                  module_state task gauss_draw
    | none =>
        cppTail st spec setup_time batch_size process_time
          module_state task gauss_draw

/-- `Factory.calculate_production_parameters`.  The updated module state
(`last_product_type` changeover) and task (`contamination_impact`,
`software_reliability`) are returned even when the result is `None`, since
the source mutates them in place before any early return. -/
def calculate_production_parameters (st : FactoryState) (task : Task)
    (module_state : ModuleState) (gauss_draw : ℚ) :
    Option ProductionParams × ModuleState × Task :=
  match module_state.spec with
  | none =>
      let t := task.recipe.time_hours * task.quantity / task.recipe.output_quantity
      let e := task.recipe.energy_kwh * task.quantity / task.recipe.output_quantity
      let params : ProductionParams :=
        { process_time := t, total_time := t, energy_required := e,
          expected_yield := task.quantity }
      (some params, module_state, task)
  | some spec =>
      let changeover := module_state.last_product_type ≠ some task.output
      let setup_time := if changeover then spec.setup_time else 0
      let module_state :=
        if changeover then { module_state with last_product_type := some task.output }
        else module_state
      let batch_size :=
        if st.config.enable_batch_processing then
          max spec.min_batch_size (min task.quantity spec.max_batch_size)
        else task.quantity
      match module_state.get_effective_throughput with
      | none => (none, module_state, task)
      | some effective_throughput =>
          if effective_throughput ≤ 0 then (none, module_state, task)
          else
            let process_time := batch_size / effective_throughput
            cppGates st spec setup_time batch_size process_time
              module_state task gauss_draw

/-- Python `a % b` on floats, for positive `b`. -/
def pymod (a b : ℚ) : ℚ := a - b * ⌊a / b⌋

/-- Python `int()` truncation toward zero. -/
def pyint (x : ℚ) : ℤ := if x ≥ 0 then ⌊x⌋ else ⌈x⌉

/-- Placeholder for the (always successful) `module_states[module_id]`
lookup after `find_available_module`; never the actual result. -/
def dummyModule : ModuleState := { module_id := "", module_type := "" }

/-- `d[k] -= v` on a float-valued dict; the `KeyError` of an absent key is
not modelled (the embedded call site is guarded by the resource gate). -/
def subAtKey [DecidableEq α] (l : List (α × ℚ)) (k : α) (v : ℚ) :
    List (α × ℚ) :=
  l.map (fun p => if p.1 = k then (p.1, p.2 - v) else p)

/-- Input-transport scheduling loop of `process_task`: one job per recipe
input, from storage to the assigned module's type, at `priority + 10`;
`transport_time` becomes the maximum conveyor travel time seen. -/
def scheduleInputTransports (quantity output_quantity : ℚ) (priority : ℤ)
    (module_type : String) :
    List (ResourceType × ℚ) → TransportSystem → Task → ProductionParams →
    TransportSystem × Task × ProductionParams
  | [], ts, task, params => (ts, task, params)
  | (input_resource, input_qty) :: rest, ts, task, params =>
      let required := input_qty * quantity / output_quantity
      let jts := ts.schedule_transport "storage" module_type input_resource
        required (priority + 10)
      let job := jts.1
      let ts := jts.2
      let task := { task with transport_jobs := task.transport_jobs ++ [job.job_id] }
      let tt := max params.transport_time (job.distance / ts.conveyor_speed / 3600)
      let params := { params with transport_time := tt }
      scheduleInputTransports quantity output_quantity priority module_type
        rest ts task params

/-- `Factory.process_task`: the gate sequence (dependencies, module,
constraints, thermal, energy, transport scheduling, resources) and the
start of production.  Returns the updated factory and the source's boolean
result.  The `random.gauss` draw of the quality computation is
`gauss_draw`; `solarWeather` abstracts the weather-enabled solar branch. -/
def process_task (solarWeather : ℚ → ℤ → ℚ) (st : FactoryState) (task : Task)
    (gauss_draw : ℚ) : FactoryState × Bool :=
  if task.dependencies.any (fun d =>
      !(st.completed_tasks.any (fun t => t.task_id = d))) then
    let task := { task with status := .blocked_dependencies }
    ({ st with blocked_tasks := setA st.blocked_tasks task.task_id task }, false)
  else
    let required_module := task.recipe.required_module.getD "assembly"
    match find_available_module st required_module with
    | none =>
        let task := { task with status := .blocked_module }
        let st := { st with blocked_tasks := setA st.blocked_tasks task.task_id task }
        (st.log ("Task " ++ task.task_id ++ " blocked - no " ++ required_module
            ++ " available") "INFO",
          false)
    | some module_id =>
        let module_state := getA st.module_states module_id dummyModule
        match calculate_production_parameters st task module_state gauss_draw with
        | (none, module_state, task) =>
            let st := { st with
              module_states := setA st.module_states module_id module_state }
            let task := { task with status := .blocked_constraints }
            ({ st with blocked_tasks := setA st.blocked_tasks task.task_id task },
              false)
        | (some production_params, module_state, task) =>
            let st := { st with
              module_states := setA st.module_states module_id module_state }
            let projected_heat := calculate_module_heat st.module_states
            if !(st.thermal_system.check_thermal_constraints projected_heat) then
              let task := { task with status := .blocked_thermal }
              let st := { st with
                blocked_tasks := setA st.blocked_tasks task.task_id task }
              (st.log ("Task " ++ task.task_id ++
                  " blocked - thermal constraints exceeded") "INFO",
                false)
            else
              let energy_available := st.energy_system.battery_charge_kwh +
                st.energy_system.calculate_solar_generation solarWeather
                  (pymod st.time 24) (pyint (st.time / 24)) *
                  production_params.total_time
              if energy_available < production_params.energy_required then
                let task := { task with status := .blocked_energy }
                let st := { st with
                  blocked_tasks := setA st.blocked_tasks task.task_id task }
                (st.log ("Task " ++ task.task_id ++
                    " blocked - insufficient energy") "INFO",
                  false)
              else
                let str := scheduleInputTransports task.quantity
                  task.recipe.output_quantity task.priority
                  module_state.module_type task.recipe.inputs
                  st.transport_system task production_params
                let st := { st with transport_system := str.1 }
                let task := str.2.1
                let production_params := str.2.2
                match task.recipe.inputs.find? (fun p =>
                    decide (getD0 st.storage.current_inventory p.1 <
                      p.2 * task.quantity / task.recipe.output_quantity)) with
                | some p =>
                    let task := { task with status := .blocked_resources }
                    let st := { st with
                      blocked_tasks := setA st.blocked_tasks task.task_id task }
                    (st.log ("Task " ++ task.task_id ++ " blocked - needs " ++
                        toString (p.2 * task.quantity / task.recipe.output_quantity)
                        ++ " " ++ p.1.value) "INFO",
                      false)
                | none =>
                    let task := { task with
                      status := .active,
                      assigned_module := some module_id,
                      setup_time := production_params.setup_time,
                      process_time := production_params.process_time,
                      start_time := some st.time,
                      completion_time := st.time + production_params.total_time
                        + production_params.transport_time,
                      energy_consumed := production_params.energy_required,
                      actual_output := production_params.expected_yield,
                      waste_generated := production_params.waste_generated }
                    let module_state := { module_state with
                      current_task := some task.task_id,
                      setup_end_time := st.time + task.setup_time }
                    let st := { st with
                      module_states := setA st.module_states module_id module_state }
                    let inv := task.recipe.inputs.foldl (fun inv p =>
                      subAtKey inv p.1
                        (p.2 * task.quantity / task.recipe.output_quantity))
                      st.storage.current_inventory
                    let st := { st with
                      storage := { st.storage with current_inventory := inv } }
                    let st := { st with
                      energy_system := (st.energy_system.update_battery
                        (-production_params.energy_required)
                        production_params.total_time).1 }
                    let st := { st with
                      active_tasks := setA st.active_tasks task.task_id task }
                    (st.log ("Started task " ++ task.task_id ++ " on " ++ module_id)
                      "INFO",
                      true)

/-- Python truthiness of an optional integer: `None` and `0` are falsy. -/
def truthyNat : Option ℕ → Bool
  | some n => n ≠ 0
  | none => false

/-- `Factory.schedule_maintenance`: 8 hours of maintenance, unless disabled
or already under way. -/
def schedule_maintenance (st : FactoryState) (module_id : String) :
    FactoryState :=
  if !st.config.enable_maintenance then st
  else
    let module_state := getA st.module_states module_id dummyModule
    if !module_state.is_in_maintenance then
      let module_state := { module_state with
        is_in_maintenance := true,
        maintenance_end_time := st.time + 8 }
      let st := { st with
        module_states := setA st.module_states module_id module_state }
      st.log ("Module " ++ module_id ++ " entering maintenance until " ++
        toString module_state.maintenance_end_time) "INFO"
    else st

/-- The software kinds of the completion check in `update_active_tasks`. -/
def softwareKinds : List ResourceType :=
  [.PLC_PROGRAM, .ROBOT_FIRMWARE, .AI_MODEL, .SCADA_SYSTEM]

/-- Completion body of `update_active_tasks` for one task whose
`completion_time` has been reached: module condition update (its
`random.random()` failure draw is `draw`), cleanroom contamination, waste
emission, output transport, storage deposit (appending to the completed
list and id set only on success; rejection only logs a warning), possible
module instantiation and software registration, module release, and
condition handling.  The caller removes the task from the active map. -/
def completeOneTask (pow_approx : ℚ → ℚ → ℚ) (st : FactoryState)
    (task_id : String) (task : Task) (draw : ℚ) : FactoryState :=
  let module_id := task.assigned_module.getD ""
  let module_state := getA st.module_states module_id dummyModule
  let hours_operated := task.setup_time + task.process_time
  let mc := module_state.update_condition hours_operated st.config draw
  let module_state := mc.1
  let condition := mc.2
  let st := { st with
    module_states := setA st.module_states module_id module_state }
  let st :=
    match lookupA st.cleanroom_environments module_id with
    | some cleanroom =>
        let activity_level := task.quantity / 100
        let cleanroom := cleanroom.update_contamination activity_level
          hours_operated pow_approx
        let envs := setA st.cleanroom_environments module_id cleanroom
        { st with cleanroom_environments := envs }
    | none => st
  let ws := task.waste_generated.foldl (fun w p => w.add_waste p.1 p.2)
    st.waste_stream
  let st := { st with waste_stream := ws }
  let tsys := (st.transport_system.schedule_transport module_state.module_type
    "storage" task.output task.actual_output 50).2
  let st := { st with transport_system := tsys }
  let st :=
    match st.storage.add_resource task.output task.actual_output with
    | some storage =>
        let st := { st with storage := storage }
        let task := { task with status := .completed }
        let st := { st with
          completed_tasks := st.completed_tasks ++ [task],
          completed_task_ids := st.completed_task_ids ++ [task_id] }
        let st := st.log ("Completed task " ++ task_id ++ ": " ++
          toString task.actual_output ++ " " ++ task.output.value) "INFO"
        let st :=
          if strEndsWith task.output.value "_module" then
            let module_type := strReplace task.output.value "_module" ""
            let count := (st.module_states.filter
              (fun (p : String × ModuleState) => strStartsWith p.1 module_type)).length
            let new_module_id := module_type ++ "_" ++ padNum 3 (count + 1)
            let st :=
              match lookupA st.module_specs module_type with
              | some spec =>
                  let fresh : ModuleState :=
                    { module_id := new_module_id, module_type := module_type,
                      spec := some spec }
                  let ms := setA st.module_states new_module_id fresh
                  let st := { st with module_states := ms }
                  if truthyNat spec.cleanroom_capable then
                    let envs := setA st.cleanroom_environments new_module_id
                      (CleanRoomEnvironment.init (spec.cleanroom_capable.getD 0))
                    { st with cleanroom_environments := envs }
                  else st
              | none =>
                  let fresh : ModuleState :=
                    { module_id := new_module_id, module_type := module_type }
                  let ms := setA st.module_states new_module_id fresh
                  { st with module_states := ms }
            st.log ("New module created: " ++ new_module_id) "INFO"
          else st
        if softwareKinds.contains task.output then
          let ds := st.software_system.develop_software task.output
            task.process_time
          let st := { st with software_system := ds.2 }
          st.log ("Software developed: " ++ task.output.value ++ " " ++ ds.1.1)
            "INFO"
        else st
    | none =>
        st.log ("Task " ++ task_id ++ " output rejected - storage full")
          "WARNING"
  let released := setA st.module_states module_id
    { module_state with current_task := none }
  let st := { st with module_states := released }
  match condition with
  | .FAILED =>
      let failed_state := getA st.module_states module_id dummyModule
      let ms := setA st.module_states module_id
        { failed_state with is_failed := true }
      let st := { st with module_states := ms }
      st.log ("Module " ++ module_id ++ " has FAILED!") "ERROR"
  | .MAINTENANCE_REQUIRED => schedule_maintenance st module_id
  | .OPERATIONAL => st

/-- Fold of `completeOneTask` over the due tasks, one failure draw each. -/
def uatGo (pow_approx : ℚ → ℚ → ℚ) :
    List (String × Task) → List ℚ → FactoryState → FactoryState
  | [], _, st => st
  | (task_id, task) :: rest, draws, st =>
      uatGo pow_approx rest draws.tail
        (completeOneTask pow_approx st task_id task (draws.headD 1))

/-- `Factory.update_active_tasks`: run the completion body on every active
task whose `completion_time` has been reached, then delete exactly those
ids from the active map (the completion body never touches the active
map or the clock). -/
def update_active_tasks (pow_approx : ℚ → ℚ → ℚ) (st : FactoryState)
    (draws : List ℚ) : FactoryState :=
  let due := st.active_tasks.filter
    (fun p => decide (st.time ≥ p.2.completion_time))
  let due_ids := due.map (fun p => p.1)
  let st' := uatGo pow_approx due draws st
  { st' with active_tasks :=
      st'.active_tasks.filter (fun p => !(due_ids.contains p.1)) }

/-- The `should_retry` computation of `Factory.check_blocked_tasks`:
dependency-blocked tasks retry only when every dependency id is in the
completed-id set; the five other `blocked_*` statuses retry
unconditionally. -/
def shouldRetryB (completed_task_ids : List String) (task : Task) : Bool :=
  match task.status with
  | .blocked_dependencies =>
      task.dependencies.all (fun d => completed_task_ids.contains d)
  | .blocked_module => true
  | .blocked_energy => true
  | .blocked_resources => true
  | .blocked_thermal => true
  | .blocked_constraints => true
  | _ => false

/-- Loop of `Factory.check_blocked_tasks`: retrying tasks are re-queued
with status `queued` and collected for deletion from the blocked map. -/
def cbtGo (completed_task_ids : List String) :
    List (String × Task) → List (ℤ × String × Task) → List String →
    List (ℤ × String × Task) × List String
  | [], queue, unblocked => (queue, unblocked)
  | (task_id, task) :: rest, queue, unblocked =>
      let should_retry := shouldRetryB completed_task_ids task
      if should_retry then
        let task := { task with status := .queued }
        cbtGo completed_task_ids rest
          (insertSorted entryLE queue (task.priority, task.task_id, task))
          (unblocked ++ [task_id])
      else cbtGo completed_task_ids rest queue unblocked

/-- `Factory.check_blocked_tasks`. -/
def check_blocked_tasks (st : FactoryState) : FactoryState :=
  let r := cbtGo st.completed_task_ids st.blocked_tasks st.task_queue []
  { st with
    task_queue := r.1,
    blocked_tasks := st.blocked_tasks.filter (fun p => !(r.2.contains p.1)) }

/-- New-task admission loop of `Factory.simulate_step`: pop while the queue
is non-empty and fewer than `MAX_TASK_STARTS_PER_STEP` tasks have started;
every popped task goes through `process_task` and only successful starts
count.  Returns the final state, the number of pops, and the number of
started tasks. -/
def admissionGo (solarWeather : ℚ → ℤ → ℚ) :
    List (ℤ × String × Task) → ℕ → List ℚ → FactoryState →
    FactoryState × ℕ × ℕ
  | [], tasks_started, _, st => ({ st with task_queue := [] }, 0, tasks_started)
  | e :: rest, tasks_started, draws, st =>
      if tasks_started ≥ MAX_TASK_STARTS_PER_STEP then
        ({ st with task_queue := e :: rest }, 0, tasks_started)
      else
        let st := { st with task_queue := rest }
        let r := process_task solarWeather st e.2.2 (draws.headD 1)
        let res :=
          if r.2 then admissionGo solarWeather rest (tasks_started + 1) draws.tail r.1
          else admissionGo solarWeather rest tasks_started draws.tail r.1
        (res.1, res.2.1 + 1, res.2.2)

/-- The new-task admission phase of one simulation step. -/
def admitNewTasks (solarWeather : ℚ → ℤ → ℚ) (st : FactoryState)
    (draws : List ℚ) : FactoryState × ℕ × ℕ :=
  admissionGo solarWeather st.task_queue 0 draws st

/-! Concrete material shared by witnesses: a configuration with weather and
degradation disabled (both branches that consume float randomness), a
roomy storage, and an ambient-22 thermal system. -/

/-- Weather and degradation disabled; other keys at their defaults. -/
def cfg0 : Config := { enable_weather := false, enable_degradation := false }

/-- Storage at the default caps of the source config. -/
def storage0 : StorageSystem :=
  { total_volume_m3 := 15000, total_weight_capacity_tons := 10000 }

/-- Thermal system at ambient 22 with the default factory area. -/
def thermal0 : ThermalManagementSystem :=
  { ambient_temp := 22, factory_area_m2 := 20000 }

/-- A factory with empty catalogs and containers. -/
def baseState : FactoryState :=
  { config := cfg0, storage := storage0,
    energy_system := EnergySystem.init cfg0, thermal_system := thermal0 }

/-- Constant-one stand-in for the abstracted float power. -/
def powOne : ℚ → ℚ → ℚ := fun _ _ => 1

/-- Zero stand-in for the abstracted weather-branch solar generation. -/
def solarZero : ℚ → ℤ → ℚ := fun _ _ => 0

/-- C3: calling `create_production_task` on a resource already in the
visited set raises `CircularDependencyError` carrying the cycle path
(the visited values followed by the revisited resource) and returns the
factory state, hence in particular the task priority queue, exactly
unchanged: the cycle check precedes every mutation. -/
theorem createProductionTask_cycle (fuel : ℕ) (st : FactoryState)
    (output : ResourceType) (quantity : ℚ) (priority : ℤ)
    (visited : List ResourceType) (h : output ∈ visited) :
    createProductionTask (fuel + 1) st output quantity priority visited =
      (st, .error (.CircularDependencyError
        (visited.map ResourceType.value ++ [output.value]))) ∧
    (createProductionTask (fuel + 1) st output quantity priority
        visited).1.task_queue = st.task_queue := by
  constructor <;> simp [createProductionTask, createBody, h]

/-- Witness for C3: the self-cycle `STEEL ∈ [STEEL]` on the base factory. -/
theorem createProductionTask_cycle_witness :
    createProductionTask 1 baseState .STEEL 5 100 [.STEEL] =
      (baseState, .error (.CircularDependencyError ["steel", "steel"])) :=
  (createProductionTask_cycle 0 baseState .STEEL 5 100 [.STEEL]
    (by decide)).1

/-- C4: the battery invariant `0.2 * cap ≤ charge ≤ 0.95 * cap` holds at
initialisation (`charge = 0.5 * cap` with `cap = 1000`) and is preserved by
every `update_battery` charge or discharge, for nonnegative capacity and
charging efficiency. -/
theorem update_battery_bounds :
    (∀ cfg : Config,
      0.2 * (EnergySystem.init cfg).battery_capacity_kwh ≤
          (EnergySystem.init cfg).battery_charge_kwh ∧
        (EnergySystem.init cfg).battery_charge_kwh ≤
          0.95 * (EnergySystem.init cfg).battery_capacity_kwh) ∧
    ∀ (es : EnergySystem) (delta dur : ℚ),
      0 ≤ es.battery_capacity_kwh →
      0 ≤ es.battery_efficiency →
      0.2 * es.battery_capacity_kwh ≤ es.battery_charge_kwh →
      es.battery_charge_kwh ≤ 0.95 * es.battery_capacity_kwh →
      0.2 * es.battery_capacity_kwh ≤
          (es.update_battery delta dur).1.battery_charge_kwh ∧
        (es.update_battery delta dur).1.battery_charge_kwh ≤
          0.95 * es.battery_capacity_kwh := by
  constructor
  · intro cfg
    constructor <;> norm_num [EnergySystem.init]
  · intro es delta dur hcap heff hlo hhi
    have heq : (es.update_battery delta dur).1.battery_charge_kwh =
        if delta > 0 then
          min (es.battery_capacity_kwh * 0.95)
            (es.battery_charge_kwh +
              min delta (es.battery_capacity_kwh * 0.5) * es.battery_efficiency)
        else
          es.battery_charge_kwh -
            min |delta| (min (es.battery_capacity_kwh * 0.5)
              (es.battery_charge_kwh - es.battery_capacity_kwh * 0.2)) := by
      unfold EnergySystem.update_battery
      by_cases h : delta > 0 <;> simp [h]
    rw [heq]
    by_cases h : delta > 0
    · rw [if_pos h]
      have hrate : 0 ≤ min delta (es.battery_capacity_kwh * 0.5) :=
        le_min h.le (by linarith)
      have hch : 0 ≤ min delta (es.battery_capacity_kwh * 0.5) *
          es.battery_efficiency := mul_nonneg hrate heff
      constructor
      · exact le_min (by linarith) (by linarith)
      · exact le_trans (min_le_left _ _) (by linarith)
    · rw [if_neg h]
      have hreq : 0 ≤ |delta| := abs_nonneg delta
      have hdis : 0 ≤ min |delta| (min (es.battery_capacity_kwh * 0.5)
          (es.battery_charge_kwh - es.battery_capacity_kwh * 0.2)) :=
        le_min hreq (le_min (by linarith) (by linarith))
      have hle : min |delta| (min (es.battery_capacity_kwh * 0.5)
          (es.battery_charge_kwh - es.battery_capacity_kwh * 0.2)) ≤
          es.battery_charge_kwh - es.battery_capacity_kwh * 0.2 :=
        le_trans
          (min_le_right |delta| (min (es.battery_capacity_kwh * 0.5)
            (es.battery_charge_kwh - es.battery_capacity_kwh * 0.2)))
          (min_le_right (es.battery_capacity_kwh * 0.5)
            (es.battery_charge_kwh - es.battery_capacity_kwh * 0.2))
      constructor
      · linarith
      · linarith

/-- Witness for C4: one 100 kWh charge on the freshly initialised battery
keeps the bounds. -/
theorem update_battery_bounds_witness :
    0.2 * (EnergySystem.init cfg0).battery_capacity_kwh ≤
        ((EnergySystem.init cfg0).update_battery 100 1).1.battery_charge_kwh ∧
      ((EnergySystem.init cfg0).update_battery 100 1).1.battery_charge_kwh ≤
        0.95 * (EnergySystem.init cfg0).battery_capacity_kwh :=
  update_battery_bounds.2 (EnergySystem.init cfg0) 100 1
    (by norm_num [EnergySystem.init, cfg0])
    (by norm_num [EnergySystem.init, cfg0])
    (by norm_num [EnergySystem.init, cfg0])
    (by norm_num [EnergySystem.init, cfg0])

/-- The temperature derate claimed by the spec:
`1 - 0.01 * max 0 (|T - 22| - 5)` (written from the spec text, for
comparison with the code). -/
def specTempDerate (temperature : ℚ) : ℚ :=
  1 - 0.01 * max 0 (|temperature - 22| - 5)

/-- The temperature derate the code applies: `1 - 0.01 * |T - 22|`
whenever `|T - 22| > 5`, else no derate. -/
def codeTempDerate (temperature : ℚ) : ℚ :=
  if |temperature - 22| > 5 then 1 - 0.01 * |temperature - 22| else 1

/-- The additional software factor the code applies: 0.95 when the module
carries a (truthy) software version. -/
def swFactor (m : ModuleState) : ℚ :=
  if truthyStr m.software_version then 0.95 else 1

/-- A healthy spec for throughput examples. -/
def mSpecC6 : ModuleSpec :=
  { module_type := "assembly", max_throughput := 10,
    power_consumption_idle := 0, power_consumption_active := 0,
    mtbf_hours := 1000, maintenance_interval := 1000,
    degradation_rate := 0, physical_footprint := 1,
    max_batch_size := 100, min_batch_size := 1, setup_time := 0,
    quality_base_rate := 1 }

/-- A module running at 30 degrees: 8 degrees from the 22-degree target. -/
def mC6 : ModuleState :=
  { module_id := "m1", module_type := "assembly", spec := some mSpecC6,
    temperature := 30 }

/-- Counterexample for C6: at temperature 30 the code's effective
throughput is `10 * (1 - 0.01 * 8) = 9.2`, while the claimed formula
`max_throughput * efficiency * (1 - 0.01 * max 0 (|T - 22| - 5))` gives
`10 * (1 - 0.01 * 3) = 9.7`. -/
theorem effective_throughput_cex :
    mC6.get_effective_throughput = some (9.2 : ℚ) ∧
    mSpecC6.max_throughput * mC6.current_efficiency *
        specTempDerate mC6.temperature = (9.7 : ℚ) ∧
    ¬((9.2 : ℚ) = 9.7) := by
  refine ⟨?_, ?_, by norm_num⟩ <;>
    norm_num [ModuleState.get_effective_throughput, mC6, mSpecC6,
      specTempDerate, truthyStr]

/-- C6 (amended): for a module with a spec, neither failed nor in
maintenance, the code's effective throughput is
`max_throughput * efficiency * codeTempDerate T * swFactor`, where the
derate is `1 - 0.01 * |T - 22|` once `|T - 22| > 5` (not
`1 - 0.01 * max 0 (|T - 22| - 5)`) and a 0.95 factor applies when the
module carries software.  A module whose effective throughput is not
positive cannot be assigned: `calculate_production_parameters` returns no
parameters for it, and `process_task` then reports failure. -/
theorem effective_throughput_amended :
    (∀ (m : ModuleState) (spec : ModuleSpec), m.spec = some spec →
      m.is_failed = false → m.is_in_maintenance = false →
      m.get_effective_throughput =
        some (spec.max_throughput * m.current_efficiency *
          codeTempDerate m.temperature * swFactor m)) ∧
    (∀ (st : FactoryState) (task : Task) (m : ModuleState)
        (spec : ModuleSpec) (g et : ℚ),
      m.spec = some spec →
      m.get_effective_throughput = some et → et ≤ 0 →
      (calculate_production_parameters st task m g).1 = none) ∧
    (∀ (solarW : ℚ → ℤ → ℚ) (st : FactoryState) (task : Task) (g : ℚ)
        (mid : String) (m' : ModuleState) (t' : Task),
      find_available_module st (task.recipe.required_module.getD "assembly")
        = some mid →
      calculate_production_parameters st task
        (getA st.module_states mid dummyModule) g = (none, m', t') →
      (process_task solarW st task g).2 = false) := by
  refine ⟨?_, ?_, ?_⟩
  · intro m spec hspec hf hm
    unfold ModuleState.get_effective_throughput codeTempDerate swFactor
    by_cases h1 : |m.temperature - 22| > 5 <;>
      by_cases h2 : truthyStr m.software_version = true <;>
        simp [hf, hm, hspec, h1, h2]
  · intro st task m spec g et hspec het hle
    unfold calculate_production_parameters
    rw [hspec]
    have hms : ({ m with spec := some spec } : ModuleState) = m := by
      rw [← hspec]
    rcases Classical.em (m.last_product_type = some task.output) with hch | hch
    · simp only [hch, ne_eq, not_true_eq_false, if_false, ite_false,
        Bool.false_eq_true]
      rw [het]
      simp [hle]
    · simp only [ne_eq, hch, not_false_eq_true, if_true, ite_true]
      have hupd : ({ m with spec := some spec, last_product_type := some task.output } : ModuleState).get_effective_throughput = some et := by
        rw [show ({ m with spec := some spec, last_product_type := some task.output } : ModuleState) = { m with last_product_type := some task.output } from by rw [← hspec]]
        exact het
      rw [hupd]
      simp [hle]
  · intro solarW st task g mid m' t' hfind hcalc
    unfold process_task
    by_cases hdep : task.dependencies.any (fun d =>
        !(st.completed_tasks.any (fun t => t.task_id = d))) = true
    · simp [hdep]
    · simp only [Bool.not_eq_true] at hdep
      simp [hdep, hfind, hcalc]

/-- A one-step recipe with no inputs (steel out of thin air), used to
exercise the scheduler paths in isolation. -/
def recipeSteel : Recipe :=
  { output := .STEEL, output_quantity := 1, inputs := [], energy_kwh := 0,
    time_hours := 1 }

/-- A queued task for one unit of `recipeSteel`. -/
def taskQ1 : Task :=
  { task_id := "t1", priority := 100, output := .STEEL, quantity := 1,
    recipe := recipeSteel }

/-- Witness for the amended C6: the 30-degree module's throughput matches
the amended formula, and a zero-efficiency module (throughput 0) obtains no
production parameters. -/
theorem effective_throughput_amended_witness :
    mC6.get_effective_throughput =
      some (mSpecC6.max_throughput * mC6.current_efficiency *
        codeTempDerate mC6.temperature * swFactor mC6) ∧
    (calculate_production_parameters baseState taskQ1
      { mC6 with current_efficiency := 0 } 1).1 = none :=
  ⟨effective_throughput_amended.1 mC6 mSpecC6 rfl rfl rfl,
    effective_throughput_amended.2.1 baseState taskQ1
      { mC6 with current_efficiency := 0 } mSpecC6 1 0 rfl
      (by norm_num [ModuleState.get_effective_throughput, mC6, mSpecC6,
        truthyStr])
      le_rfl⟩

/-- Membership in a sorted insertion is membership in the inserted element
or the original list. -/
theorem mem_insertSorted (le : α → α → Bool) (l : List α) (x a : α) :
    a ∈ insertSorted le l x ↔ a = x ∨ a ∈ l := by
  induction l with
  | nil => simp [insertSorted]
  | cons y rest ih =>
      simp only [insertSorted]
      split_ifs with h
      · simp [List.mem_cons]
      · simp only [List.mem_cons, ih]
        tauto

/-- The retry loop never drops queue entries. -/
theorem cbtGo_queue_mono (ids : List String) :
    ∀ (blocked : List (String × Task)) (queue : List (ℤ × String × Task))
      (acc : List String) (e : ℤ × String × Task),
      e ∈ queue → e ∈ (cbtGo ids blocked queue acc).1 := by
  intro blocked
  induction blocked with
  | nil => intro queue acc e he; simpa [cbtGo] using he
  | cons hd tl ih =>
      intro queue acc e he
      obtain ⟨tid, task⟩ := hd
      simp only [cbtGo]
      split_ifs with h
      · exact ih _ _ _ ((mem_insertSorted _ _ _ _).2 (Or.inr he))
      · exact ih _ _ _ he

/-- Ids not keyed in the blocked list pass through the collected-unblocked
accumulator untouched. -/
theorem cbtGo_snd_stable (ids : List String) :
    ∀ (blocked : List (String × Task)) (queue : List (ℤ × String × Task))
      (acc : List String) (tid : String),
      tid ∉ blocked.map Prod.fst →
      (tid ∈ (cbtGo ids blocked queue acc).2 ↔ tid ∈ acc) := by
  intro blocked
  induction blocked with
  | nil => intro queue acc tid _; simp [cbtGo]
  | cons hd tl ih =>
      intro queue acc tid h
      obtain ⟨hid, htask⟩ := hd
      simp only [List.map_cons, List.mem_cons] at h
      push_neg at h
      simp only [cbtGo]
      split_ifs with hr
      · rw [ih _ _ _ h.2]
        simp [h.1]
      · exact ih _ _ _ h.2

/-- A blocked entry's id is collected for unblocking exactly when its task
retries. -/
theorem cbtGo_snd_mem (ids : List String) :
    ∀ (blocked : List (String × Task)) (queue : List (ℤ × String × Task))
      (acc : List String) (tid : String) (task : Task),
      (tid, task) ∈ blocked →
      (blocked.map Prod.fst).Nodup →
      (tid ∈ (cbtGo ids blocked queue acc).2 ↔
        tid ∈ acc ∨ shouldRetryB ids task = true) := by
  intro blocked
  induction blocked with
  | nil => intro _ _ _ _ h; simp at h
  | cons hd tl ih =>
      intro queue acc tid task hmem hnd
      obtain ⟨hid, htask⟩ := hd
      simp only [List.map_cons, List.nodup_cons] at hnd
      rcases List.mem_cons.1 hmem with heq | htl
      · obtain ⟨rfl, rfl⟩ := Prod.mk.injEq .. ▸ heq.symm
        simp only [cbtGo]
        split_ifs with hr
        · rw [cbtGo_snd_stable ids tl _ _ _ hnd.1]
          simp [hr]
        · rw [cbtGo_snd_stable ids tl _ _ _ hnd.1]
          simp [hr]
      · have hne : tid ≠ hid := by
          intro hEq
          exact hnd.1 (hEq ▸ List.mem_map_of_mem Prod.fst htl)
        simp only [cbtGo]
        split_ifs with hr
        · rw [ih _ _ _ _ htl hnd.2]
          simp [hne]
        · exact ih _ _ _ _ htl hnd.2

/-- A retrying blocked entry is pushed (with status `queued`) onto the
result queue. -/
theorem cbtGo_queue_mem (ids : List String) :
    ∀ (blocked : List (String × Task)) (queue : List (ℤ × String × Task))
      (acc : List String) (tid : String) (task : Task),
      (tid, task) ∈ blocked → shouldRetryB ids task = true →
      (task.priority, task.task_id, { task with status := TaskStatus.queued })
        ∈ (cbtGo ids blocked queue acc).1 := by
  intro blocked
  induction blocked with
  | nil => intro _ _ _ _ h; simp at h
  | cons hd tl ih =>
      intro queue acc tid task hmem hr
      obtain ⟨hid, htask⟩ := hd
      rcases List.mem_cons.1 hmem with heq | htl
      · obtain ⟨rfl, rfl⟩ := Prod.mk.injEq .. ▸ heq.symm
        simp only [cbtGo]
        rw [if_pos hr]
        exact cbtGo_queue_mono _ _ _ _ _
          ((mem_insertSorted _ _ _ _).2 (Or.inl rfl))
      · simp only [cbtGo]
        split_ifs with hr2
        · exact ih _ _ _ _ htl hr
        · exact ih _ _ _ _ htl hr

/-- C8: in `check_blocked_tasks`, a `blocked_dependencies` task is removed
from the blocked map and pushed back to the priority queue if and only if
every id in its dependency set is in `completed_task_ids` (so a
dependency-blocked task is never unblocked while any ancestor is
incomplete), while a task with any of the other `blocked_*` statuses is
unconditionally pushed back. -/
theorem check_blocked_tasks_retry (st : FactoryState) (tid : String)
    (task : Task) (hnd : (st.blocked_tasks.map Prod.fst).Nodup)
    (hmem : (tid, task) ∈ st.blocked_tasks) :
    (task.status = .blocked_dependencies →
      (((∀ d ∈ task.dependencies, d ∈ st.completed_task_ids) ↔
        (∀ q, (tid, q) ∉ (check_blocked_tasks st).blocked_tasks)) ∧
       ((∀ d ∈ task.dependencies, d ∈ st.completed_task_ids) →
        (task.priority, task.task_id, { task with status := .queued })
          ∈ (check_blocked_tasks st).task_queue))) ∧
    ((task.status = .blocked_module ∨ task.status = .blocked_energy ∨
      task.status = .blocked_resources ∨ task.status = .blocked_thermal ∨
      task.status = .blocked_constraints) →
      ((∀ q, (tid, q) ∉ (check_blocked_tasks st).blocked_tasks) ∧
       (task.priority, task.task_id, { task with status := .queued })
         ∈ (check_blocked_tasks st).task_queue)) := by
  have hcollect := cbtGo_snd_mem st.completed_task_ids st.blocked_tasks
    st.task_queue [] tid task hmem hnd
  simp only [List.not_mem_nil, false_or] at hcollect
  have hgone : (∀ q, (tid, q) ∉ (check_blocked_tasks st).blocked_tasks) ↔
      tid ∈ (cbtGo st.completed_task_ids st.blocked_tasks st.task_queue []).2 := by
    unfold check_blocked_tasks
    constructor
    · intro h
      by_contra hnot
      exact h task (List.mem_filter.2 ⟨hmem, by simp [hnot]⟩)
    · intro h q hq
      have := List.mem_filter.1 hq
      simp [h] at this
  constructor
  · intro hdep
    have hsr : shouldRetryB st.completed_task_ids task =
        task.dependencies.all (fun d => st.completed_task_ids.contains d) := by
      simp [shouldRetryB, hdep]
    constructor
    · rw [hgone, hcollect, hsr]
      simp
    · intro hall
      refine cbtGo_queue_mem _ _ _ _ _ _ hmem ?_
      rw [hsr]
      simp only [List.all_eq_true]
      intro d hd
      simp [hall d hd]
  · intro hother
    have hsr : shouldRetryB st.completed_task_ids task = true := by
      rcases hother with h | h | h | h | h <;> simp [shouldRetryB, h]
    refine ⟨?_, cbtGo_queue_mem _ _ _ _ _ _ hmem hsr⟩
    rw [hgone, hcollect, hsr]

/-- A dependency-blocked task whose one dependency is completed. -/
def taskB1 : Task :=
  { task_id := "t1", priority := 100, output := .STEEL, quantity := 1,
    recipe := recipeSteel, dependencies := ["d1"],
    status := .blocked_dependencies }

/-- A module-blocked task. -/
def taskB2 : Task :=
  { task_id := "t2", priority := 90, output := .STEEL, quantity := 1,
    recipe := recipeSteel, status := .blocked_module }

/-- A factory with two blocked tasks and one completed dependency id. -/
def stC8 : FactoryState :=
  { baseState with
    blocked_tasks := [("t1", taskB1), ("t2", taskB2)],
    completed_task_ids := ["d1"] }

/-- Witness for C8: with dependency `d1` completed, the blocked task `t1`
leaves the blocked map and reappears queued on the priority queue. -/
theorem check_blocked_tasks_retry_witness :
    (∀ q, ("t1", q) ∉ (check_blocked_tasks stC8).blocked_tasks) ∧
    (taskB1.priority, taskB1.task_id, { taskB1 with status := .queued })
      ∈ (check_blocked_tasks stC8).task_queue :=
  let h := check_blocked_tasks_retry stC8 "t1" taskB1
    (by simp [stC8, baseState]) (by simp [stC8])
  ⟨(h.1 rfl).1.1 (by simp [taskB1, stC8]),
    (h.1 rfl).2 (by simp [taskB1, stC8])⟩

/-- C7 (amended): the admission phase pops until
`MAX_TASK_STARTS_PER_STEP = 5` tasks have successfully started or the
queue empties, calling `process_task` on each popped task; at most five
tasks start per step, but the number of pops can exceed five because
unsuccessfully processed (blocked) pops do not count toward the limit. -/
theorem admission_starts_bounded (solarW : ℚ → ℤ → ℚ) :
    (∀ (q : List (ℤ × String × Task)) (started : ℕ) (draws : List ℚ)
        (st : FactoryState),
      started ≤ MAX_TASK_STARTS_PER_STEP →
      (admissionGo solarW q started draws st).2.2 ≤ MAX_TASK_STARTS_PER_STEP) ∧
    (∀ (st : FactoryState) (draws : List ℚ),
      (admitNewTasks solarW st draws).2.2 ≤ MAX_TASK_STARTS_PER_STEP) := by
  have main : ∀ (q : List (ℤ × String × Task)) (started : ℕ)
      (draws : List ℚ) (st : FactoryState),
      started ≤ MAX_TASK_STARTS_PER_STEP →
      (admissionGo solarW q started draws st).2.2 ≤ MAX_TASK_STARTS_PER_STEP := by
    intro q
    induction q with
    | nil => intro started draws st h; simpa [admissionGo] using h
    | cons e rest ih =>
        intro started draws st h
        simp only [admissionGo]
        split_ifs with hge hr
        · simpa using h
        · exact ih (started + 1) draws.tail _ (Nat.lt_of_not_le hge)
        · exact ih started draws.tail _ h
  exact ⟨main, fun st draws => main st.task_queue 0 draws st (by norm_num)⟩

/-- A queued no-dependency task named `s`. -/
def mkTaskA (s : String) : Task :=
  { task_id := s, priority := 100, output := .STEEL, quantity := 1,
    recipe := recipeSteel }

/-- A factory with six queued tasks and no modules at all: every popped
task blocks on the module gate. -/
def stC7 : FactoryState :=
  { baseState with task_queue :=
      [(100, "a1", mkTaskA "a1"), (100, "a2", mkTaskA "a2"),
       (100, "a3", mkTaskA "a3"), (100, "a4", mkTaskA "a4"),
       (100, "a5", mkTaskA "a5"), (100, "a6", mkTaskA "a6")] }

/-- Counterexample for C7: with six queued tasks that all fail to start
(no module exists), one admission phase pops all six tasks - more than
`MAX_TASK_STARTS_PER_STEP = 5` - because only successful starts count. -/
theorem admission_pops_cex :
    (admitNewTasks solarZero stC7 []).2.1 = 6 ∧
    ¬((admitNewTasks solarZero stC7 []).2.1 ≤ MAX_TASK_STARTS_PER_STEP) := by
  have h : (admitNewTasks solarZero stC7 []).2.1 = 6 := by
    norm_num [admitNewTasks, admissionGo, process_task, find_available_module,
      stC7, mkTaskA, recipeSteel, baseState, MAX_TASK_STARTS_PER_STEP,
      pickMaxEffId, setA, FactoryState.log, calculate_module_heat,
      WasteStream.get_total_waste, MAX_LOG_ENTRIES]
  exact ⟨h, by rw [h]; norm_num [MAX_TASK_STARTS_PER_STEP]⟩

/-- An in-flight transport job named `s` (far-future completion). -/
def mkActiveJob (s : String) : TransportJob :=
  { job_id := s, from_module := "mining", to_module := "refining",
    resource_type := .STEEL, quantity := 1, priority := 100, distance := 50,
    completion_time := some 1000 }

/-- A small queued job eligible for the conveyor. -/
def jobSmall : TransportJob :=
  { job_id := "q1", from_module := "mining", to_module := "refining",
    resource_type := .STEEL, quantity := 1, priority := 100, distance := 50 }

/-- A transport system already at 20 concurrent transports with one more
job waiting in the queue. -/
def tsC9 : TransportSystem :=
  { transport_queue := [(100, "q1", jobSmall)],
    active_transports :=
      [("j01", mkActiveJob "j01"), ("j02", mkActiveJob "j02"),
       ("j03", mkActiveJob "j03"), ("j04", mkActiveJob "j04"),
       ("j05", mkActiveJob "j05"), ("j06", mkActiveJob "j06"),
       ("j07", mkActiveJob "j07"), ("j08", mkActiveJob "j08"),
       ("j09", mkActiveJob "j09"), ("j10", mkActiveJob "j10"),
       ("j11", mkActiveJob "j11"), ("j12", mkActiveJob "j12"),
       ("j13", mkActiveJob "j13"), ("j14", mkActiveJob "j14"),
       ("j15", mkActiveJob "j15"), ("j16", mkActiveJob "j16"),
       ("j17", mkActiveJob "j17"), ("j18", mkActiveJob "j18"),
       ("j19", mkActiveJob "j19"), ("j20", mkActiveJob "j20")] }

/-- C9: the source defines `MAX_CONCURRENT_TRANSPORTS = 20` but never
reads it: `process_transport_queue` dispatches (up to 5 starts per
invocation) without checking the number of in-flight transports, so from a
state with 20 active transports and a queued conveyor-eligible job one
dispatch yields 21 concurrent transports, contradicting the claimed
20-transport cap. -/
theorem transport_cap_unenforced :
    tsC9.active_transports.length = MAX_CONCURRENT_TRANSPORTS ∧
    (tsC9.process_transport_queue 0).active_transports.length =
      MAX_CONCURRENT_TRANSPORTS + 1 := by
  constructor
  · norm_num [tsC9, MAX_CONCURRENT_TRANSPORTS]
  · norm_num [tsC9, TransportSystem.process_transport_queue, ptqGo,
      setA, jobSmall, mkActiveJob, MAX_CONCURRENT_TRANSPORTS]
    simp

/-- Logging does not touch storage. -/
theorem log_storage (st : FactoryState) (m l : String) :
    (st.log m l).storage = st.storage := rfl

/-- Pushing a finished task does not touch storage. -/
theorem finishCreate_storage (st : FactoryState) (task : Task) :
    (finishCreate st task).1.storage = st.storage := rfl

/-- The input-expansion loop preserves storage whenever the recursive
expansion does. -/
theorem processInputs_storage
    (recur : FactoryState → ResourceType → ℚ → ℤ → List ResourceType →
      FactoryState × Except CreateErr (Option Task))
    (hrec : ∀ st out q p v, (recur st out q p v).1.storage = st.storage)
    (quantity : ℚ) (recipe : Recipe) (priority : ℤ)
    (visited : List ResourceType) :
    ∀ (inputs : List (ResourceType × ℚ)) (st : FactoryState) (task : Task),
      (processInputs recur quantity recipe priority visited inputs
        st task).1.storage = st.storage := by
  intro inputs
  induction inputs with
  | nil => intro st task; rfl
  | cons p rest ih =>
      intro st task
      obtain ⟨input_resource, input_qty⟩ := p
      simp only [processInputs]
      by_cases h1 : (recyclable_materials input_resource).isSome = true
      · simp only [h1, ite_true, if_true]
        split_ifs with hav
        · split
          next st2 e heq =>
            have h2 := congrArg (fun pr =>
              (pr : FactoryState × Except CreateErr (Option Task)).1.storage) heq
            dsimp only at h2
            rw [hrec] at h2
            exact h2.symm
          next st2 dep heq =>
            rw [ih]
            have h2 := congrArg (fun pr =>
              (pr : FactoryState × Except CreateErr (Option Task)).1.storage) heq
            dsimp only at h2
            rw [hrec] at h2
            exact h2.symm
          next st2 heq =>
            rw [ih]
            have h2 := congrArg (fun pr =>
              (pr : FactoryState × Except CreateErr (Option Task)).1.storage) heq
            dsimp only at h2
            rw [hrec] at h2
            exact h2.symm
        · rw [ih]
      · simp only [h1, ite_false, if_false, Bool.false_eq_true]
        split_ifs with hav
        · split
          next st2 e heq =>
            have h2 := congrArg (fun pr =>
              (pr : FactoryState × Except CreateErr (Option Task)).1.storage) heq
            dsimp only at h2
            rw [hrec] at h2
            exact h2.symm
          next st2 dep heq =>
            rw [ih]
            have h2 := congrArg (fun pr =>
              (pr : FactoryState × Except CreateErr (Option Task)).1.storage) heq
            dsimp only at h2
            rw [hrec] at h2
            exact h2.symm
          next st2 heq =>
            rw [ih]
            have h2 := congrArg (fun pr =>
              (pr : FactoryState × Except CreateErr (Option Task)).1.storage) heq
            dsimp only at h2
            rw [hrec] at h2
            exact h2.symm
        · rw [ih]

/-- The software-dependency tail preserves storage whenever the recursive
expansion does. -/
theorem softwareAndFinish_storage
    (recur : FactoryState → ResourceType → ℚ → ℤ → List ResourceType →
      FactoryState × Except CreateErr (Option Task))
    (hrec : ∀ st out q p v, (recur st out q p v).1.storage = st.storage)
    (st : FactoryState) (task : Task) (recipe : Recipe) (priority : ℤ)
    (visited' : List ResourceType) :
    (softwareAndFinish recur st task recipe priority visited').1.storage
      = st.storage := by
  unfold softwareAndFinish
  split
  · split
    next st2 e heq =>
      have h2 := congrArg (fun pr =>
        (pr : FactoryState × Except CreateErr (Option Task)).1.storage) heq
      dsimp only at h2
      rw [hrec] at h2
      exact h2.symm
    next st2 dep heq =>
      have h2 := congrArg (fun pr =>
        (pr : FactoryState × Except CreateErr (Option Task)).1.storage) heq
      dsimp only at h2
      rw [hrec] at h2
      rw [finishCreate_storage]
      exact h2.symm
    next st2 heq =>
      have h2 := congrArg (fun pr =>
        (pr : FactoryState × Except CreateErr (Option Task)).1.storage) heq
      dsimp only at h2
      rw [hrec] at h2
      rw [finishCreate_storage]
      exact h2.symm
  · exact finishCreate_storage st task

/-- One expansion layer preserves storage whenever the recursive expansion
does. -/
theorem createBody_storage
    (recur : FactoryState → ResourceType → ℚ → ℤ → List ResourceType →
      FactoryState × Except CreateErr (Option Task))
    (hrec : ∀ st out q p v, (recur st out q p v).1.storage = st.storage)
    (st : FactoryState) (output : ResourceType) (quantity : ℚ)
    (priority : ℤ) (visited : List ResourceType) :
    (createBody recur st output quantity priority visited).1.storage
      = st.storage := by
  unfold createBody
  by_cases h1 : output ∈ visited
  · rw [if_pos h1]
  · rw [if_neg h1]
    cases hfind : findRecipe st.recipes output with
    | none => rfl
    | some recipe =>
        dsimp only
        split_ifs with hcs
        · rfl
        · split
          next st2 e heq =>
            have h2 := congrArg (fun pr =>
              (pr : FactoryState × Except CreateErr Task).1.storage) heq
            dsimp only at h2
            rw [processInputs_storage recur hrec] at h2
            exact h2.symm
          next st2 task2 heq =>
            have h2 := congrArg (fun pr =>
              (pr : FactoryState × Except CreateErr Task).1.storage) heq
            dsimp only at h2
            rw [processInputs_storage recur hrec] at h2
            rw [softwareAndFinish_storage recur hrec]
            exact h2.symm

/-- `create_production_task` never modifies the storage system (it only
reads it), at every recursion depth. -/
theorem createProductionTask_storage_aux :
    ∀ (fuel : ℕ) (st : FactoryState) (output : ResourceType) (quantity : ℚ)
      (priority : ℤ) (visited : List ResourceType),
      (createProductionTask fuel st output quantity priority visited).1.storage
        = st.storage := by
  intro fuel
  induction fuel with
  | zero => intro st _ _ _ _; rfl
  | succ n ih =>
      intro st output quantity priority visited
      exact createBody_storage (createProductionTask n) ih st output quantity
        priority visited

/-- C10: recipe expansion never writes `storage.current_inventory`: for
every call (any fuel, arguments and state, including the paths that draw
recyclable material) the whole storage system, and in particular the
current inventory that the later resource gate of `process_task` reads, is
unchanged; the recycled draw is only subtracted from the waste inventory
(`process_recycling` returns `rate * min(required, waste)` and debits
`min(required, waste)` from the waste stream), and recovered material is
never deposited into storage. -/
theorem createProductionTask_storage_frame :
    (∀ (fuel : ℕ) (st : FactoryState) (output : ResourceType) (quantity : ℚ)
        (priority : ℤ) (visited : List ResourceType),
      (createProductionTask fuel st output quantity priority visited).1.storage
          = st.storage ∧
        (createProductionTask fuel st output quantity priority
            visited).1.storage.current_inventory
          = st.storage.current_inventory) ∧
    (∀ (w : WasteStream) (r : ResourceType) (q rate : ℚ),
      recyclable_materials r = some rate →
      (w.process_recycling r q).1 =
          min q (getD0 w.waste_inventory r) * rate ∧
        (w.process_recycling r q).2.waste_inventory =
          addQ w.waste_inventory r (-(min q (getD0 w.waste_inventory r)))) ∧
    (∀ (w : WasteStream) (r : ResourceType) (q : ℚ),
      recyclable_materials r = none → w.process_recycling r q = (0, w)) := by
  refine ⟨?_, ?_, ?_⟩
  · intro fuel st output quantity priority visited
    have h := createProductionTask_storage_aux fuel st output quantity
      priority visited
    exact ⟨h, by rw [h]⟩
  · intro w r q rate h
    simp [WasteStream.process_recycling, h]
  · intro w r q h
    simp [WasteStream.process_recycling, h]

/-- Witness for C10: expanding steel with fuel 2 on a state holding iron
ore leaves the storage inventory untouched, and a steel recycling draw of 4
out of 10 stored waste tons returns `4 * 0.95` and debits 4. -/
theorem createProductionTask_storage_frame_witness :
    (createProductionTask 2 baseState .STEEL 5 100 []).1.storage
        = baseState.storage ∧
      ((WasteStream.mk [(.STEEL, 10)]).process_recycling .STEEL 4).1 =
        min 4 (getD0 [(.STEEL, 10)] ResourceType.STEEL) * 0.95 :=
  ⟨(createProductionTask_storage_frame.1 2 baseState .STEEL 5 100 []).1,
    (createProductionTask_storage_frame.2.1 (WasteStream.mk [(.STEEL, 10)])
      .STEEL 4 0.95 rfl).1⟩

/-- Multiplying a nonnegative batch by the `[0.5, 1]`-clamped quality rate
stays within half and the whole batch. -/
theorem mul_clamp_bounds (batch x : ℚ) (hb : 0 ≤ batch) :
    0.5 * batch ≤ batch * max 0.5 (min 1 x) ∧
      batch * max 0.5 (min 1 x) ≤ batch := by
  have h1 : (0.5 : ℚ) ≤ max 0.5 (min 1 x) := le_max_left _ _
  have h2 : max (0.5 : ℚ) (min 1 x) ≤ 1 :=
    max_le (by norm_num) (min_le_left _ _)
  constructor <;> nlinarith

/-- The expected yield that `cppTail` computes is the batch size times the
clamped quality rate, hence between half the batch and the batch. -/
theorem cppTail_yield (st : FactoryState) (spec : ModuleSpec)
    (setup batch pt : ℚ) (m : ModuleState) (task : Task) (g : ℚ)
    (params : ProductionParams) (hb : 0 ≤ batch)
    (h : (cppTail st spec setup batch pt m task g).1 = some params) :
    0.5 * batch ≤ params.expected_yield ∧ params.expected_yield ≤ batch := by
  unfold cppTail at h
  dsimp only at h
  injection h with h'
  subst h'
  exact mul_clamp_bounds batch _ hb

/-- The batch size `calculate_production_parameters` uses: the quantity
clamped to the spec's batch range when batch processing is enabled, else
the raw quantity. -/
def batch_size_calc (st : FactoryState) (task : Task) (spec : ModuleSpec) : ℚ :=
  if st.config.enable_batch_processing then
    max spec.min_batch_size (min task.quantity spec.max_batch_size)
  else task.quantity

/-- Every parameter set that passes the tolerance/cleanroom gates comes
from `cppTail`, so its yield obeys the batch bounds. -/
theorem cppGates_yield (st : FactoryState) (spec : ModuleSpec)
    (setup batch pt : ℚ) (m : ModuleState) (task : Task) (g : ℚ)
    (params : ProductionParams) (hb : 0 ≤ batch)
    (h : (cppGates st spec setup batch pt m task g).1 = some params) :
    0.5 * batch ≤ params.expected_yield ∧ params.expected_yield ≤ batch := by
  unfold cppGates at h
  by_cases htol : tolFail task spec = true
  · rw [if_pos htol] at h
    simp at h
  · rw [if_neg htol] at h
    rcases hcr : task.recipe.cleanroom_class with _ | rc <;> rw [hcr] at h <;>
      dsimp only at h
    · exact cppTail_yield _ _ _ _ _ _ _ _ _ hb h
    · by_cases h0 : rc = 0
      · rw [if_pos h0] at h
        exact cppTail_yield _ _ _ _ _ _ _ _ _ hb h
      · rw [if_neg h0] at h
        rcases henv : lookupA st.cleanroom_environments m.module_id
          with _ | cr <;> rw [henv] at h <;> dsimp only at h
        · simp at h
        · by_cases hcl : cr.cleanroom_class > rc
          · rw [if_pos hcl] at h
            simp at h
          · rw [if_neg hcl] at h
            exact cppTail_yield _ _ _ _ _ _ _ _ _ hb h

/-- C2 (amended): for a task computed on a module with a spec, the
expected yield (copied into `actual_output` when the task starts) is
bounded by the *batch size*, not the requested quantity:
`0.5 * B ≤ yield ≤ B` with `B = clamp(quantity, min_batch, max_batch)`
when batch processing is enabled (else `B = quantity`); for a module
without a spec the yield equals the quantity exactly. -/
theorem expected_yield_batch_bounds :
    (∀ (st : FactoryState) (task : Task) (m : ModuleState)
        (spec : ModuleSpec) (g : ℚ) (params : ProductionParams)
        (m' : ModuleState) (t' : Task),
      m.spec = some spec →
      calculate_production_parameters st task m g = (some params, m', t') →
      0 ≤ task.quantity → 0 ≤ spec.min_batch_size →
      0.5 * batch_size_calc st task spec ≤ params.expected_yield ∧
        params.expected_yield ≤ batch_size_calc st task spec) ∧
    (∀ (st : FactoryState) (task : Task) (m : ModuleState) (g : ℚ)
        (params : ProductionParams) (m' : ModuleState) (t' : Task),
      m.spec = none →
      calculate_production_parameters st task m g = (some params, m', t') →
      params.expected_yield = task.quantity) := by
  constructor
  · intro st task m spec g params m' t' hspec hcalc hq hmin
    have hb : 0 ≤ batch_size_calc st task spec := by
      unfold batch_size_calc
      split_ifs
      · exact le_trans hmin (le_max_left _ _)
      · exact hq
    unfold calculate_production_parameters at hcalc
    rw [hspec] at hcalc
    rcases Classical.em (m.last_product_type = some task.output) with hch | hch
    · simp only [hch, ne_eq, not_true_eq_false, if_false, ite_false,
        Bool.false_eq_true] at hcalc
      rcases het : m.get_effective_throughput with _ | et <;>
        rw [het] at hcalc <;> dsimp only at hcalc
      · simp at hcalc
      · by_cases hle : et ≤ 0
        · rw [if_pos hle] at hcalc
          simp at hcalc
        · rw [if_neg hle] at hcalc
          exact cppGates_yield _ _ _ _ _ _ _ _ _ hb
            (congrArg Prod.fst hcalc)
    · simp only [ne_eq, hch, not_false_eq_true, if_true, ite_true] at hcalc
      rcases het : ({ m with spec := some spec, last_product_type := some task.output } : ModuleState).get_effective_throughput with _ | et <;>
        rw [het] at hcalc <;> dsimp only at hcalc
      · simp at hcalc
      · by_cases hle : et ≤ 0
        · rw [if_pos hle] at hcalc
          simp at hcalc
        · rw [if_neg hle] at hcalc
          exact cppGates_yield _ _ _ _ _ _ _ _ _ hb
            (congrArg Prod.fst hcalc)
  · intro st task m g params m' t' hspec hcalc
    unfold calculate_production_parameters at hcalc
    rw [hspec] at hcalc
    dsimp only at hcalc
    injection hcalc with h1 h2
    injection h1 with h1
    subst h1
    rfl

/-- A spec whose minimum batch (10) exceeds the one-unit request. -/
def mSpecC2 : ModuleSpec :=
  { module_type := "assembly", max_throughput := 10,
    power_consumption_idle := 0, power_consumption_active := 0,
    mtbf_hours := 1000, maintenance_interval := 1000,
    degradation_rate := 0, physical_footprint := 1,
    max_batch_size := 100, min_batch_size := 10, setup_time := 0,
    quality_base_rate := 1 }

/-- An idle assembly module carrying `mSpecC2`. -/
def moduleC2 : ModuleState :=
  { module_id := "m1", module_type := "assembly", spec := some mSpecC2 }

/-- A factory with that one module. -/
def stC2 : FactoryState :=
  { baseState with module_states := [("m1", moduleC2)] }

/-- Witness for the amended C2 at a concrete input where the batch is
clamped up to 10. -/
theorem expected_yield_batch_bounds_witness :
    0.5 * batch_size_calc stC2 taskQ1 mSpecC2 ≤
      ((calculate_production_parameters stC2 taskQ1 moduleC2 1).1.getD
        {}).expected_yield ∧
    ((calculate_production_parameters stC2 taskQ1 moduleC2 1).1.getD
        {}).expected_yield ≤ batch_size_calc stC2 taskQ1 mSpecC2 :=
  expected_yield_batch_bounds.1 stC2 taskQ1 moduleC2 mSpecC2 1
    ((calculate_production_parameters stC2 taskQ1 moduleC2 1).1.getD {})
    (calculate_production_parameters stC2 taskQ1 moduleC2 1).2.1
    (calculate_production_parameters stC2 taskQ1 moduleC2 1).2.2
    rfl
    (by
      simp [calculate_production_parameters, cppGates, cppTail, tolFail,
        ModuleState.get_effective_throughput, truthyStr, moduleC2, mSpecC2,
        stC2, taskQ1, recipeSteel, baseState, cfg0, lookupA,
        SoftwareProductionSystem.calculate_software_reliability, bug_rates]
      norm_num)
    (by norm_num [taskQ1]) (by norm_num [mSpecC2])

/-- Field views of `stC2` (plain projection computations). -/
theorem stC2_module_states : stC2.module_states = [("m1", moduleC2)] := rfl

theorem stC2_config : stC2.config = cfg0 := rfl

theorem stC2_time : stC2.time = 0 := rfl

theorem stC2_storage : stC2.storage = storage0 := rfl

theorem stC2_energy : stC2.energy_system = EnergySystem.init cfg0 := rfl

theorem stC2_thermal : stC2.thermal_system = thermal0 := rfl

theorem stC2_cleanrooms : stC2.cleanroom_environments = [] := rfl

/-- The one assembly module of `stC2` is selected. -/
theorem findC2_eval : find_available_module stC2 "assembly" = some "m1" := by
  norm_num [find_available_module, pickMaxEffId, effIdLT,
    List.filterMap_cons, List.filterMap_nil, calculate_module_heat,
    ModuleState.get_power_consumption,
    ThermalManagementSystem.check_thermal_constraints,
    ThermalManagementSystem.calculate_cooling_requirement,
    stC2_module_states, stC2_thermal, thermal0, moduleC2, mSpecC2]

/-- The production parameters computed for one unit on `moduleC2`: batch
clamped up to 10, one hour of processing, yield 10. -/
def paramsC2 : ProductionParams :=
  { setup_time := 0, process_time := 1, total_time := 1,
    energy_required := 0, expected_yield := 10, transport_time := 0,
    waste_generated := [] }

/-- `moduleC2` after the changeover bookkeeping. -/
def mPre : ModuleState :=
  { moduleC2 with last_product_type := some ResourceType.STEEL }

theorem calcC2_eval :
    calculate_production_parameters stC2 taskQ1 moduleC2 1 =
      (some paramsC2, mPre, taskQ1) := by
  simp [calculate_production_parameters, cppGates, cppTail, tolFail,
    ModuleState.get_effective_throughput, truthyStr, moduleC2, mSpecC2,
    stC2_config, cfg0, taskQ1, recipeSteel, paramsC2, mPre,
    SoftwareProductionSystem.calculate_software_reliability, bug_rates]
  norm_num

/-- The started task as `process_task` records it. -/
def taskStarted : Task :=
  { task_id := "t1", priority := 100, output := .STEEL, quantity := 1,
    recipe := recipeSteel, status := .active, assigned_module := some "m1",
    process_time := 1, start_time := some 0, completion_time := 1,
    actual_output := 10 }

/-- `moduleC2` once the task is running on it. -/
def mStarted : ModuleState :=
  { mPre with current_task := some "t1" }

/-- The log entry the start emits. -/
def logStart : LogEntry :=
  { timestamp := 0, level := "INFO", message := "Started task t1 on m1",
    thermal_load := 0, waste_total := 0 }

/-- The factory right after the start. -/
def stMid : FactoryState :=
  { stC2 with
    module_states := [("m1", mStarted)],
    active_tasks := [("t1", taskStarted)],
    log_entries := [logStart] }

theorem taskQ1_deps : taskQ1.dependencies = [] := rfl

theorem taskQ1_recipe : taskQ1.recipe = recipeSteel := rfl

theorem taskQ1_id : taskQ1.task_id = "t1" := rfl

theorem recipeSteel_reqmod : recipeSteel.required_module = none := rfl

theorem recipeSteel_inputs : recipeSteel.inputs = [] := rfl

theorem mPre_spec : mPre.spec = some mSpecC2 := rfl

theorem mPre_failed : mPre.is_failed = false := rfl

theorem mPre_maint : mPre.is_in_maintenance = false := rfl

theorem mPre_ct : mPre.current_task = none := rfl

theorem mSpecC2_active : mSpecC2.power_consumption_active = 0 := rfl

theorem mSpecC2_idle : mSpecC2.power_consumption_idle = 0 := rfl

theorem paramsC2_setup : paramsC2.setup_time = 0 := rfl

theorem paramsC2_process : paramsC2.process_time = 1 := rfl

theorem paramsC2_total : paramsC2.total_time = 1 := rfl

theorem paramsC2_energy : paramsC2.energy_required = 0 := rfl

theorem paramsC2_yield : paramsC2.expected_yield = 10 := rfl

theorem paramsC2_transport : paramsC2.transport_time = 0 := rfl

theorem paramsC2_waste : paramsC2.waste_generated = [] := rfl

theorem stC2_active : stC2.active_tasks = [] := rfl

theorem stC2_waste : stC2.waste_stream = {} := rfl

theorem stC2_log : stC2.log_entries = [] := rfl

theorem initCfg0_charge : (EnergySystem.init cfg0).battery_charge_kwh = 500 := by
  norm_num [EnergySystem.init]

theorem initCfg0_cap : (EnergySystem.init cfg0).battery_capacity_kwh = 1000 := by
  norm_num [EnergySystem.init]

theorem initCfg0_cycles : (EnergySystem.init cfg0).battery_cycles = 0 := by
  norm_num [EnergySystem.init]

theorem initCfg0_solar (f : ℚ → ℤ → ℚ) (x : ℚ) (y : ℤ) :
    (EnergySystem.init cfg0).calculate_solar_generation f x y = 100 / 3 := by
  norm_num [EnergySystem.init, EnergySystem.calculate_solar_generation, cfg0]

set_option maxHeartbeats 4000000 in
theorem startC2_eval :
    process_task solarZero stC2 taskQ1 1 = (stMid, true) := by
  norm_num [process_task, taskQ1_deps, taskQ1_recipe, taskQ1_id,
    recipeSteel_reqmod, recipeSteel_inputs, findC2_eval, calcC2_eval,
    getA, lookupA, setA, stC2_module_states, stC2_thermal, stC2_energy,
    stC2_time, stC2_config, stC2_storage, stC2_active, stC2_waste, stC2_log,
    scheduleInputTransports, mPre_spec, mPre_failed, mPre_maint, mPre_ct,
    mSpecC2_active, mSpecC2_idle, paramsC2_setup, paramsC2_process,
    paramsC2_total, paramsC2_energy, paramsC2_yield, paramsC2_transport,
    paramsC2_waste, initCfg0_charge, initCfg0_cap, initCfg0_cycles,
    initCfg0_solar, EnergySystem.update_battery, thermal0,
    ThermalManagementSystem.check_thermal_constraints,
    ThermalManagementSystem.calculate_cooling_requirement,
    calculate_module_heat, ModuleState.get_power_consumption,
    FactoryState.log, MAX_LOG_ENTRIES, WasteStream.get_total_waste]
  try norm_num [stMid, mStarted, taskStarted, logStart, mPre, moduleC2,
    mSpecC2, paramsC2, taskQ1, recipeSteel, stC2, baseState, cfg0, storage0,
    thermal0, EnergySystem.init]
  try norm_num
  try rfl
  try decide

theorem stMid_active : stMid.active_tasks = [("t1", taskStarted)] := rfl

theorem stMid_modules : stMid.module_states = [("m1", mStarted)] := rfl

theorem stMid_config : stMid.config = cfg0 := rfl

theorem stMid_storage : stMid.storage = storage0 := rfl

theorem stMid_waste : stMid.waste_stream = {} := rfl

theorem stMid_cleanrooms : stMid.cleanroom_environments = [] := rfl

theorem stMid_completed : stMid.completed_tasks = [] := rfl

theorem stMid_completed_ids : stMid.completed_task_ids = [] := rfl

theorem stMid_log : stMid.log_entries = [logStart] := rfl

theorem taskStarted_ct : taskStarted.completion_time = 1 := rfl

theorem taskStarted_q : taskStarted.quantity = 1 := rfl

theorem taskStarted_ao : taskStarted.actual_output = 10 := rfl

theorem taskStarted_setup : taskStarted.setup_time = 0 := rfl

theorem taskStarted_process : taskStarted.process_time = 1 := rfl

theorem taskStarted_wg : taskStarted.waste_generated = [] := rfl

theorem taskStarted_am : taskStarted.assigned_module = some "m1" := rfl

theorem taskStarted_out : taskStarted.output = ResourceType.STEEL := rfl

theorem mStarted_spec : mStarted.spec = some mSpecC2 := rfl

theorem mStarted_failed : mStarted.is_failed = false := rfl

theorem mStarted_maint : mStarted.is_in_maintenance = false := rfl

theorem mStarted_ct : mStarted.current_task = some "t1" := rfl

theorem mStarted_type : mStarted.module_type = "assembly" := rfl

theorem hendsC2 : strEndsWith "steel" "_module" = false := by decide

theorem hswC2 : ResourceType.STEEL ∉ softwareKinds := by decide

set_option maxHeartbeats 4000000 in
/-- Counterexample for C2: requesting one unit of steel on a module whose
minimum batch size is 10 yields a *completed* task delivering
`actual_output = 10`, which violates the claimed bound
`actual_output ≤ quantity = 1`: the batch clamp
`max(min_batch, min(quantity, max_batch))` can exceed the requested
quantity, and the start, completion and deposit all use the batch-based
yield unchanged. -/
theorem completed_output_exceeds_quantity_cex :
    ((update_active_tasks powOne
        { (process_task solarZero stC2 taskQ1 1).1 with time := 1 }
        []).completed_tasks.map (fun t => (t.quantity, t.actual_output)))
      = [((1 : ℚ), (10 : ℚ))] ∧
    ¬((10 : ℚ) ≤ (1 : ℚ)) := by
  constructor
  · rw [startC2_eval]
    norm_num [update_active_tasks, uatGo, completeOneTask,
      List.filter_cons, List.filter_nil, decide_eq_true_eq,
      stMid_active, stMid_modules, stMid_config, stMid_storage, stMid_waste,
      stMid_cleanrooms, stMid_completed, stMid_completed_ids, stMid_log,
      taskStarted_ct, taskStarted_q, taskStarted_ao, taskStarted_setup,
      taskStarted_process, taskStarted_wg, taskStarted_am, taskStarted_out,
      mStarted_spec, mStarted_failed, mStarted_maint, mStarted_ct,
      mStarted_type, mSpecC2_active, mSpecC2_idle, cfg0,
      ModuleState.update_condition, getA, lookupA, setA, addQ, getD0,
      StorageSystem.add_resource, StorageSystem.can_store,
      get_material_properties, storage0, WasteStream.get_total_waste,
      FactoryState.log, MAX_LOG_ENTRIES, calculate_module_heat,
      ModuleState.get_power_consumption, ResourceType.value,
      hendsC2, hswC2]
    try norm_num
    try simp
    try norm_num
  · norm_num

/-- Witness for the amended C7 at the six-task queue: the hypothesis
`0 ≤ 5` is discharged concretely. -/
theorem admission_starts_bounded_witness :
    (admissionGo solarZero stC7.task_queue 0 [] stC7).2.2 ≤
      MAX_TASK_STARTS_PER_STEP :=
  (admission_starts_bounded solarZero).1 stC7.task_queue 0 [] stC7
    (by norm_num [MAX_TASK_STARTS_PER_STEP])

/-! C1 material: the completion body's bookkeeping around the storage
deposit, and the unconditional removal of due tasks from the active map. -/

theorem log_completed_tasks (st : FactoryState) (m l : String) :
    (st.log m l).completed_tasks = st.completed_tasks := rfl

theorem log_completed_ids (st : FactoryState) (m l : String) :
    (st.log m l).completed_task_ids = st.completed_task_ids := rfl

theorem sm_completed_tasks (st : FactoryState) (mid : String) :
    (schedule_maintenance st mid).completed_tasks = st.completed_tasks := by
  unfold schedule_maintenance
  split
  · rfl
  · dsimp only
    split <;> rfl

theorem sm_completed_ids (st : FactoryState) (mid : String) :
    (schedule_maintenance st mid).completed_task_ids =
      st.completed_task_ids := by
  unfold schedule_maintenance
  split
  · rfl
  · dsimp only
    split <;> rfl

set_option maxHeartbeats 3200000 in
/-- C1 (amended): when the storage deposit of a due task's output is
rejected, the completion body leaves the completed-task list and the
completed-id set exactly unchanged (the output is lost and only a warning
is logged); they are appended only on a successful deposit; and
`update_active_tasks` removes every due task from the active map
unconditionally, whether or not the deposit succeeded. -/
theorem completion_deposit_and_removal (pow : ℚ → ℚ → ℚ) :
    (∀ (st : FactoryState) (task_id : String) (task : Task) (draw : ℚ),
      st.storage.add_resource task.output task.actual_output = none →
      (completeOneTask pow st task_id task draw).completed_tasks =
          st.completed_tasks ∧
        (completeOneTask pow st task_id task draw).completed_task_ids =
          st.completed_task_ids) ∧
    (∀ (st : FactoryState) (task_id : String) (task : Task) (draw : ℚ)
        (stor : StorageSystem),
      st.storage.add_resource task.output task.actual_output = some stor →
      (completeOneTask pow st task_id task draw).completed_tasks =
          st.completed_tasks ++ [{ task with status := .completed }] ∧
        (completeOneTask pow st task_id task draw).completed_task_ids =
          st.completed_task_ids ++ [task_id]) ∧
    (∀ (st : FactoryState) (draws : List ℚ) (p : String × Task),
      p ∈ st.active_tasks → p.2.completion_time ≤ st.time →
      ∀ q ∈ (update_active_tasks pow st draws).active_tasks, q.1 ≠ p.1) := by
  refine ⟨?_, ?_, ?_⟩
  · intro st task_id task draw h
    rcases hcr : lookupA st.cleanroom_environments
        (task.assigned_module.getD "") with - | c <;>
      constructor <;>
      · simp only [completeOneTask, hcr, h]
        split <;>
        first
        | rfl
        | simp [sm_completed_tasks, sm_completed_ids, log_completed_tasks,
            log_completed_ids]
  · intro st task_id task draw stor h
    rcases hcr : lookupA st.cleanroom_environments
        (task.assigned_module.getD "") with - | c <;>
      constructor <;>
      · simp only [completeOneTask, hcr, h]
        repeat' split
        all_goals
          first
          | rfl
          | simp [sm_completed_tasks, sm_completed_ids, log_completed_tasks,
              log_completed_ids]
  · intro st draws p hp hdue q hq heq
    have hcontains : ((st.active_tasks.filter
        (fun r => decide (st.time ≥ r.2.completion_time))).map
          (fun r => r.1)).contains q.1 = true :=
      List.elem_iff.2 (List.mem_map.2 ⟨p,
        List.mem_filter.2 ⟨hp, by simpa using hdue⟩, heq.symm⟩)
    simp only [update_active_tasks, List.mem_filter, hcontains,
      Bool.not_true] at hq
    exact Bool.false_ne_true hq.2

/-- A storage with no capacity at all: every deposit is rejected. -/
def storageZ : StorageSystem :=
  { total_volume_m3 := 0, total_weight_capacity_tons := 0 }

/-- A due active task holding one unit of steel output. -/
def taskDoneC1 : Task :=
  { task_id := "t1", priority := 100, output := .STEEL, quantity := 1,
    recipe := recipeSteel, status := .active, assigned_module := some "m1",
    process_time := 1, completion_time := 1, actual_output := 1 }

/-- A factory at time 1 whose only active task is due and whose storage
rejects everything. -/
def stC1 : FactoryState :=
  { baseState with
    storage := storageZ, time := 1,
    active_tasks := [("t1", taskDoneC1)] }

/-- Witness for the amended C1: the zero-capacity deposit of the due
task's output is rejected, and the completed lists stay unchanged. -/
theorem completion_deposit_and_removal_witness :
    (completeOneTask powOne stC1 "t1" taskDoneC1 1).completed_tasks =
      stC1.completed_tasks ∧
    (completeOneTask powOne stC1 "t1" taskDoneC1 1).completed_task_ids =
      stC1.completed_task_ids :=
  (completion_deposit_and_removal powOne).1 stC1 "t1" taskDoneC1 1
    (by norm_num [stC1, storageZ, taskDoneC1, baseState,
      StorageSystem.add_resource, StorageSystem.can_store,
      get_material_properties])

/-- Counterexample for C1: with a full storage, processing the one due
task leaves `completed_tasks` and `completed_task_ids` empty - the
rejected task is recorded nowhere - while it is still removed from the
active map, contradicting the claim that completion is appended even on a
rejected deposit. -/
theorem rejected_completion_not_recorded_cex :
    (update_active_tasks powOne stC1 []).completed_tasks = [] ∧
    (update_active_tasks powOne stC1 []).completed_task_ids = [] ∧
    (update_active_tasks powOne stC1 []).active_tasks = [] := by
  norm_num [update_active_tasks, uatGo, completeOneTask,
    ModuleState.update_condition, getA, lookupA, setA,
    StorageSystem.add_resource, StorageSystem.can_store,
    get_material_properties, storageZ, stC1, taskDoneC1, baseState, cfg0,
    thermal0, dummyModule, WasteStream.get_total_waste, FactoryState.log,
    MAX_LOG_ENTRIES, calculate_module_heat,
    ModuleState.get_power_consumption, recipeSteel, decide_eq_true_eq,
    List.filter_cons, List.filter_nil]

/-! C5 material: the thermal gate of `process_task` versus the spec's
claimed candidate-inclusive projection. -/

/-- An assembly spec whose active power is enormous while idle power is
zero. -/
def mSpecC5 : ModuleSpec :=
  { module_type := "assembly", max_throughput := 10,
    power_consumption_idle := 0, power_consumption_active := 100000,
    mtbf_hours := 1000, maintenance_interval := 1000,
    degradation_rate := 0, physical_footprint := 1,
    max_batch_size := 100, min_batch_size := 1, setup_time := 0,
    quality_base_rate := 1 }

/-- An idle assembly module carrying `mSpecC5`. -/
def moduleC5 : ModuleState :=
  { module_id := "m1", module_type := "assembly", spec := some mSpecC5 }

/-- A factory with that one idle, high-active-power module. -/
def stC5 : FactoryState :=
  { baseState with module_states := [("m1", moduleC5)] }

/-- The thermal check C5 claims (built from the spec's words, for
comparison with the source): cooling feasibility of the projected module
set *with the candidate module running actively*, i.e. with its
`current_task` set to the candidate task. -/
def claimedThermalGate (st : FactoryState) (module_id task_id : String) :
    Bool :=
  let m := getA st.module_states module_id dummyModule
  st.thermal_system.check_thermal_constraints
    (calculate_module_heat (setA st.module_states module_id
      { m with current_task := some task_id }))

/-- C5 (amended): the thermal gate of `process_task` tests cooling
feasibility against the heat of the module set *before* the candidate task
is assigned - the candidate module is still idle there, so its active
power does not enter the check - and on failure the task is blocked with
status `blocked_thermal`. -/
theorem thermal_gate_pre_assignment (f : ℚ → ℤ → ℚ) (st : FactoryState)
    (task : Task) (g : ℚ) (module_id : String) (params : ProductionParams)
    (m' : ModuleState) (t' : Task)
    (hdep : task.dependencies.any (fun d =>
      !(st.completed_tasks.any (fun t => t.task_id = d))) = false)
    (hfind : find_available_module st
      (task.recipe.required_module.getD "assembly") = some module_id)
    (hcalc : calculate_production_parameters st task
      (getA st.module_states module_id dummyModule) g = (some params, m', t'))
    (hth : st.thermal_system.check_thermal_constraints
      (calculate_module_heat (setA st.module_states module_id m')) = false) :
    process_task f st task g =
      (({ st with
          module_states := setA st.module_states module_id m',
          blocked_tasks := setA st.blocked_tasks t'.task_id
            { t' with status := .blocked_thermal } }).log
        ("Task " ++ t'.task_id ++ " blocked - thermal constraints exceeded")
        "INFO", false) := by
  simp only [process_task, hdep, hfind, hcalc, hth, Bool.false_eq_true,
    if_false, Bool.not_false, if_true, reduceIte]
  try rfl

/-- A busy electronics module drawing huge active power. -/
def mSpecHot : ModuleSpec :=
  { module_type := "electronics", max_throughput := 10,
    power_consumption_idle := 0, power_consumption_active := 100000,
    mtbf_hours := 1000, maintenance_interval := 1000,
    degradation_rate := 0, physical_footprint := 1,
    max_batch_size := 100, min_batch_size := 1, setup_time := 0,
    quality_base_rate := 1 }

/-- The busy module instance. -/
def moduleHot : ModuleState :=
  { module_id := "m2", module_type := "electronics", spec := some mSpecHot,
    current_task := some "x" }

/-- A factory where the idle assembly candidate coexists with the hot busy
module. -/
def stC5w : FactoryState :=
  { baseState with module_states := [("m1", moduleC5), ("m2", moduleHot)] }

/-- `moduleC5` after the changeover bookkeeping. -/
def mPreC5 : ModuleState :=
  { moduleC5 with last_product_type := some ResourceType.STEEL }

/-- The parameters computed for one unit of steel on `moduleC5`. -/
def paramsC5 : ProductionParams :=
  { setup_time := 0, process_time := 1 / 10, total_time := 1 / 10,
    energy_required := 10000, expected_yield := 1, transport_time := 0,
    waste_generated := [] }

/-- Witness for the amended C5: the busy second module makes the
pre-assignment heat check fail, and `process_task` blocks the task with
`blocked_thermal`. -/
theorem thermal_gate_pre_assignment_witness :
    process_task solarZero stC5w taskQ1 1 =
      (({ stC5w with
          module_states := setA stC5w.module_states "m1" mPreC5,
          blocked_tasks := setA stC5w.blocked_tasks taskQ1.task_id
            { taskQ1 with status := .blocked_thermal } }).log
        ("Task " ++ taskQ1.task_id ++ " blocked - thermal constraints exceeded")
        "INFO", false) :=
  thermal_gate_pre_assignment solarZero stC5w taskQ1 1 "m1" paramsC5 mPreC5
    taskQ1 rfl
    (by norm_num [find_available_module, pickMaxEffId, effIdLT,
      List.filterMap_cons, List.filterMap_nil, calculate_module_heat,
      ModuleState.get_power_consumption,
      ThermalManagementSystem.check_thermal_constraints,
      ThermalManagementSystem.calculate_cooling_requirement,
      stC5w, baseState, moduleC5, moduleHot, mSpecC5, mSpecHot, thermal0,
      taskQ1, recipeSteel])
    (by
      simp [calculate_production_parameters, cppGates, cppTail,
        tolFail, ModuleState.get_effective_throughput, truthyStr, getA,
        lookupA, stC5w, baseState, cfg0, moduleC5, mSpecC5, taskQ1,
        recipeSteel, paramsC5, mPreC5,
        SoftwareProductionSystem.calculate_software_reliability, bug_rates]
      norm_num)
    (by norm_num [setA, lookupA, calculate_module_heat,
      ModuleState.get_power_consumption,
      ThermalManagementSystem.check_thermal_constraints,
      ThermalManagementSystem.calculate_cooling_requirement,
      stC5w, baseState, moduleC5, moduleHot, mSpecC5, mSpecHot, mPreC5,
      thermal0])

set_option maxRecDepth 8000 in
set_option maxHeartbeats 40000000 in
/-- Counterexample for C5: on the lone idle high-active-power module, the
check the spec claims (candidate running actively) fails, yet
`process_task` passes its thermal gate - the heat is computed with the
candidate still idle - and the task ends up `blocked_energy` at the later
energy gate, not `blocked_thermal`. -/
theorem thermal_gate_excludes_candidate_cex :
    claimedThermalGate stC5 "m1" "t1" = false ∧
    (process_task solarZero stC5 taskQ1 1).1.blocked_tasks.map
      (fun p => (p.1, p.2.status)) = [("t1", TaskStatus.blocked_energy)] ∧
    (process_task solarZero stC5 taskQ1 1).2 = false := by
  refine ⟨?_, ?_, ?_⟩ <;>
  · simp [claimedThermalGate, process_task, find_available_module,
      pickMaxEffId, effIdLT, List.filterMap_cons, List.filterMap_nil,
      calculate_production_parameters, cppGates, cppTail, tolFail,
      ModuleState.get_effective_throughput, truthyStr,
      SoftwareProductionSystem.calculate_software_reliability, bug_rates,
      calculate_module_heat, ModuleState.get_power_consumption,
      ThermalManagementSystem.check_thermal_constraints,
      ThermalManagementSystem.calculate_cooling_requirement,
      EnergySystem.init, EnergySystem.calculate_solar_generation, solarZero,
      pymod, pyint, getA, lookupA, setA, taskQ1, recipeSteel, stC5,
      moduleC5, mSpecC5, baseState, cfg0, storage0, thermal0,
      FactoryState.log, MAX_LOG_ENTRIES, WasteStream.get_total_waste,
      dummyModule]
    try norm_num
    try simp [claimedThermalGate, process_task, find_available_module,
      pickMaxEffId, effIdLT, List.filterMap_cons, List.filterMap_nil,
      calculate_production_parameters, cppGates, cppTail, tolFail,
      ModuleState.get_effective_throughput, truthyStr,
      SoftwareProductionSystem.calculate_software_reliability, bug_rates,
      calculate_module_heat, ModuleState.get_power_consumption,
      ThermalManagementSystem.check_thermal_constraints,
      ThermalManagementSystem.calculate_cooling_requirement,
      EnergySystem.init, EnergySystem.calculate_solar_generation, solarZero,
      pymod, pyint, getA, lookupA, setA, taskQ1, recipeSteel, stC5,
      moduleC5, mSpecC5, baseState, cfg0, storage0, thermal0,
      FactoryState.log, MAX_LOG_ENTRIES, WasteStream.get_total_waste,
      dummyModule]
    try norm_num
    try simp [claimedThermalGate, process_task, find_available_module,
      pickMaxEffId, effIdLT, List.filterMap_cons, List.filterMap_nil,
      calculate_production_parameters, cppGates, cppTail, tolFail,
      ModuleState.get_effective_throughput, truthyStr,
      SoftwareProductionSystem.calculate_software_reliability, bug_rates,
      calculate_module_heat, ModuleState.get_power_consumption,
      ThermalManagementSystem.check_thermal_constraints,
      ThermalManagementSystem.calculate_cooling_requirement,
      EnergySystem.init, EnergySystem.calculate_solar_generation, solarZero,
      pymod, pyint, getA, lookupA, setA, taskQ1, recipeSteel, stC5,
      moduleC5, mSpecC5, baseState, cfg0, storage0, thermal0,
      FactoryState.log, MAX_LOG_ENTRIES, WasteStream.get_total_waste,
      dummyModule]
    try norm_num
    try simp [claimedThermalGate, process_task, find_available_module,
      pickMaxEffId, effIdLT, List.filterMap_cons, List.filterMap_nil,
      calculate_production_parameters, cppGates, cppTail, tolFail,
      ModuleState.get_effective_throughput, truthyStr,
      SoftwareProductionSystem.calculate_software_reliability, bug_rates,
      calculate_module_heat, ModuleState.get_power_consumption,
      ThermalManagementSystem.check_thermal_constraints,
      ThermalManagementSystem.calculate_cooling_requirement,
      EnergySystem.init, EnergySystem.calculate_solar_generation, solarZero,
      pymod, pyint, getA, lookupA, setA, taskQ1, recipeSteel, stC5,
      moduleC5, mSpecC5, baseState, cfg0, storage0, thermal0,
      FactoryState.log, MAX_LOG_ENTRIES, WasteStream.get_total_waste,
      dummyModule]
    try norm_num
    try simp

end FactorySim
